import Mathlib

/-!
# NEWAM: networked telemetry sender

A shallow embedding of `networkedEWAM.h` / `networkedEWAM.cpp`.

* C++ `double` values are exact rationals (`ℚ`); `int` values are `Int`.
* `qrand()` results are explicit non-negative arguments (`Nat`).
* Objects owned by Qt (the client socket, the reconnect timer, the listening
  server, the peer sockets) are represented by the part of their state that the
  code reads, and calls made on them are returned as lists of calls.
* Console output is not represented.
-/

namespace NEWAM

/-! ## Qt-side data -/

/-- The states of `QAbstractSocket::SocketState`. -/
inductive SocketState where
  | UnconnectedState
  | HostLookupState
  | ConnectingState
  | ConnectedState
  | BoundState
  | ListeningState
  | ClosingState
deriving DecidableEq, Repr

/-- The values of `QAbstractSocket::SocketError` that the client can observe. -/
inductive SocketError where
  | ConnectionRefusedError
  | RemoteHostClosedError
  | HostNotFoundError
  | SocketAccessError
  | SocketResourceError
  | SocketTimeoutError
  | NetworkError
  | UnknownSocketError
deriving DecidableEq, Repr

/-- A byte sequence (`QByteArray`). -/
abbrev Bytes := List Nat

/-- A `QTimer`: it is active from `start` until `stop` (it is never made single-shot). -/
structure QTimer where
  active : Bool
  interval : Int
deriving DecidableEq, Repr

/-- Method `QTimer::start(int msec)`. -/
def QTimer.start (_t : QTimer) (msec : Int) : QTimer :=
  { active := true, interval := msec }

/-- Method `QTimer::stop()`. -/
def QTimer.stop (t : QTimer) : QTimer :=
  { t with active := false }

/-- A `QTcpServer`, as far as `startServer` and `stopServer` observe it. -/
structure QTcpServer where
  listening : Bool
  port : Nat
deriving DecidableEq, Repr

/-- Method `QTcpServer::listen(QHostAddress::Any, port)`: it reports failure when the server is
already listening, and otherwise succeeds exactly when the bind does (`bindOk`). -/
def QTcpServer.listen (s : QTcpServer) (port : Nat) (bindOk : Bool) : Bool × QTcpServer :=
  if s.listening then (false, s)
  else if bindOk then (true, { listening := true, port := port })
  else (false, s)

/-- Method `QTcpServer::close()`. -/
def QTcpServer.close (s : QTcpServer) : QTcpServer :=
  { s with listening := false }

/-- A call made on the client socket. -/
inductive SocketCall where
  | connectToHost (host : String) (port : Nat)
  | write (data : Bytes)
  | flush
deriving DecidableEq, Repr

/-- A call made on a peer socket of the server (`peer` is the socket's identity). -/
inductive PeerCall where
  | write (peer : Nat) (data : Bytes)
  | flush (peer : Nat)
  | disconnectFromHost (peer : Nat)
deriving DecidableEq, Repr

/-! ## Data model (`networkedEWAM.h`) -/

/-- The `SimulatedEntity` struct; `category` holds the integer value of the enum. -/
structure SimulatedEntity where
  id : String
  type : String
  lat : ℚ
  lon : ℚ
  altitude : ℚ
  speed : ℚ
  heading : ℚ
  turnRate : ℚ
  climbRate : ℚ
  priority : String
  jam : Bool
  category : Int
  targetAlt : ℚ
  targetSpeed : ℚ
  targetHeading : ℚ
deriving DecidableEq, Repr

/-- Modelled from the spec: the `Emitter` class of `emitter.h`, which is not among the
sources. The fields are the ones `sendEmitterUpdate` reads; the spec calls
`jamEffective` and `jamIneffective` flags. -/
structure Emitter where
  id : String
  type : String
  category : String
  lat : ℚ
  lon : ℚ
  freqMin : ℚ
  freqMax : ℚ
  active : Bool
  eaPriority : String
  esPriority : String
  jamResponsible : Bool
  reactiveEligible : Bool
  preemptiveEligible : Bool
  consentRequired : Bool
  jam : Bool
  jamIneffective : Bool
  jamEffective : Bool
deriving DecidableEq, Repr

/-- What the headers outside the sources decide: `PE::getCategory` (as the integer value
of the category) and the two emitter fields that the constructor call does not pass. -/
structure External where
  getCategory : String → Int
  jamIneffective : Bool
  jamEffective : Bool

/-- Method `QMap::operator[]` followed by assignment: the entry for `k` is replaced when it is
there and otherwise inserted at its place in key order. -/
def qmapSet {α : Type} (k : String) (v : α) : List (String × α) → List (String × α)
  | [] => [(k, v)]
  | (k1, v1) :: rest =>
    if k = k1 then (k, v) :: rest
    else if k < k1 then (k, v) :: (k1, v1) :: rest
    else (k1, v1) :: qmapSet k v rest

/-- The members of `NetworkedEWAM`. `socketState` is `socket->state()`; `server` is
`none` for a null pointer; `clients` holds the identities of the peer sockets. -/
structure NetworkedEWAM where
  socketState : SocketState
  currentHost : String
  currentPort : Nat
  reconnectTimer : QTimer
  reconnectInterval : Int
  reconnectAttempts : Int
  autoReconnect : Bool
  server : Option QTcpServer
  clients : List Nat
  entities : List (String × SimulatedEntity)
  emitters : List (String × Emitter)
  buffer : Bytes
deriving DecidableEq, Repr

/-- The constant member `MAX_RECONNECT_ATTEMPTS`. -/
def MAX_RECONNECT_ATTEMPTS : Int := 5

/-! ## Connection manager (client mode) -/

/-- The constructor `NetworkedEWAM::NetworkedEWAM`. A fresh `QTimer` is inactive with
interval 0 and a fresh socket is unconnected. The initialiser list names neither `server`
nor `currentPort`, so both are indeterminate in the source; here they are taken to be
null and 0. -/
def NetworkedEWAM.construct : NetworkedEWAM :=
  { socketState := SocketState.UnconnectedState
    currentHost := ""
    currentPort := 0
    reconnectTimer := { active := false, interval := 0 }
    reconnectInterval := 5000
    reconnectAttempts := 0
    autoReconnect := true
    server := none
    clients := []
    entities := []
    emitters := []
    buffer := [] }

/-- Method `NetworkedEWAM::setReconnectInterval`. -/
def setReconnectInterval (m : NetworkedEWAM) (msecs : Int) : NetworkedEWAM :=
  { m with reconnectInterval := msecs }

/-- Method `NetworkedEWAM::isConnected`. -/
def isConnected (m : NetworkedEWAM) : Bool :=
  decide (m.socketState = SocketState.ConnectedState)

/-- Method `NetworkedEWAM::connectToHost`. -/
def connectToHost (m : NetworkedEWAM) (host : String) (port : Nat) :
    NetworkedEWAM × List SocketCall :=
  ({ m with currentHost := host, currentPort := port, reconnectAttempts := 0 },
   [SocketCall.connectToHost host port])

/-- Method `NetworkedEWAM::onConnected`. -/
def onConnected (m : NetworkedEWAM) : NetworkedEWAM :=
  { m with reconnectTimer := m.reconnectTimer.stop, reconnectAttempts := 0 }

/-- Method `NetworkedEWAM::onDisconnected`. -/
def onDisconnected (m : NetworkedEWAM) : NetworkedEWAM :=
  if m.autoReconnect && decide (m.reconnectAttempts < MAX_RECONNECT_ATTEMPTS) then
    { m with reconnectTimer := m.reconnectTimer.start m.reconnectInterval }
  else m

/-- Method `NetworkedEWAM::onError`. -/
def onError (m : NetworkedEWAM) (error : SocketError) : NetworkedEWAM :=
  if error = SocketError.ConnectionRefusedError then
    if m.autoReconnect && decide (m.reconnectAttempts < MAX_RECONNECT_ATTEMPTS) then
      { m with reconnectTimer := m.reconnectTimer.start m.reconnectInterval }
    else if m.reconnectAttempts ≥ MAX_RECONNECT_ATTEMPTS then
      m -- only the message "Max reconnection attempts reached. Giving up."
    else m
  else m

/-- Method `NetworkedEWAM::tryReconnect`. -/
def tryReconnect (m : NetworkedEWAM) : NetworkedEWAM × List SocketCall :=
  ({ m with reconnectAttempts := m.reconnectAttempts + 1 },
   [SocketCall.connectToHost m.currentHost m.currentPort])

/-- A JSON value, as far as the records of this program use them. -/
inductive QJsonValue where
  | str (s : String)
  | num (x : ℚ)
  | int (n : Int)
  | bool (b : Bool)
deriving DecidableEq, Repr

/-- A `QJsonObject`: a map from keys to values. -/
abbrev QJsonObject := List (String × QJsonValue)

/-- Method `NetworkedEWAM::sendJson`. `toJson` is `QJsonDocument(json).toJson(Compact)`,
`written` is what `socket->write` returns and `flushed` what `socket->flush` returns.
The result is the manager afterwards, the returned value and the calls made on the
socket. -/
def sendJson (toJson : QJsonObject → Bytes) (m : NetworkedEWAM) (json : QJsonObject)
    (written : Int) (flushed : Bool) : NetworkedEWAM × Bool × List SocketCall :=
  if m.socketState ≠ SocketState.ConnectedState then
    if m.autoReconnect && decide (m.reconnectAttempts < MAX_RECONNECT_ATTEMPTS) then
      (m, false, []) -- only the message "Not connected. Queuing message..."
    else
      (m, false, [])
  else
    let data := toJson json ++ [10]
    if written = -1 then
      (m, false, [SocketCall.write data])
    else
      (m, flushed, [SocketCall.write data, SocketCall.flush])

/-- What the event loop delivers to the client: an explicit `connectToHost` call, the
socket's signals, and the timeout of the reconnect timer. -/
inductive Event where
  | connectToHost (host : String) (port : Nat)
  | connected
  | disconnected
  | error (e : SocketError)
  | timeout
deriving DecidableEq, Repr

/-- One event, dispatched to the slot the constructor connected it to. The timeout is
delivered only while the reconnect timer is active. -/
def step (m : NetworkedEWAM) : Event → Option (NetworkedEWAM × List SocketCall)
  | Event.connectToHost host port => some (connectToHost m host port)
  | Event.connected => some (onConnected m, [])
  | Event.disconnected => some (onDisconnected m, [])
  | Event.error e => some (onError m e, [])
  | Event.timeout => if m.reconnectTimer.active then some (tryReconnect m) else none

/-- A trace of events from a state: the final state and all calls made on the socket,
or `none` when some event of the trace is not enabled. -/
def runTrace (m : NetworkedEWAM) : List Event → Option (NetworkedEWAM × List SocketCall)
  | [] => some (m, [])
  | e :: es =>
    match step m e with
    | none => none
    | some (m1, c1) =>
      match runTrace m1 es with
      | none => none
      | some (m2, c2) => some (m2, c1 ++ c2)

/-- Whether a socket call is a connect attempt. -/
def SocketCall.isConnect : SocketCall → Bool
  | SocketCall.connectToHost _ _ => true
  | _ => false

/-- The number of connect attempts among the calls. -/
def countConnects (cs : List SocketCall) : Nat :=
  (cs.filter SocketCall.isConnect).length

/-- The events of `n` rounds in which the reconnect timer fires and the connect attempt
it issues is refused. -/
def refusedRounds : Nat → List Event
  | 0 => []
  | n + 1 => Event.timeout :: Event.error SocketError.ConnectionRefusedError :: refusedRounds n

/-- An explicit connect that is refused, followed by `n` refused rounds: the trace holds
`n + 1` connect attempts and every one of them is refused. -/
def refusedTrace (host : String) (port : Nat) (n : Nat) : List Event :=
  Event.connectToHost host port :: Event.error SocketError.ConnectionRefusedError ::
    refusedRounds n

/-- The state in which `refusedTrace "localhost" 12345 n` ends. -/
def refusedState (n : Nat) : NetworkedEWAM :=
  { NetworkedEWAM.construct with
    currentHost := "localhost"
    currentPort := 12345
    reconnectTimer := { active := true, interval := 5000 }
    reconnectAttempts := n }

/-! ## Kinematics engine -/

/-- The heading block of `updateDynamics`: the difference to the target after the two
normalisation steps. -/
def headingDiff (heading targetHeading : ℚ) : ℚ :=
  let d0 := targetHeading - heading
  let d1 := if d0 > 180 then d0 - 360 else d0
  if d1 < -180 then d1 + 360 else d1

/-- The heading block of `updateDynamics`: `turnDirection`. -/
def turnDirection (heading targetHeading : ℚ) : ℚ :=
  if headingDiff heading targetHeading > 0 then 1 else -1

/-- The two wrap steps applied to a heading (`>= 360` then `< 0`). -/
def wrapHeading (h : ℚ) : ℚ :=
  let h1 := if h ≥ 360 then h - 360 else h
  if h1 < 0 then h1 + 360 else h1

/-- The heading block of `updateDynamics`. -/
def updateHeading (entity : SimulatedEntity) (deltaSeconds : ℚ) : SimulatedEntity :=
  if |entity.heading - entity.targetHeading| > 1 then
    let turnRate := 3 * turnDirection entity.heading entity.targetHeading
    { entity with
      turnRate := turnRate
      heading := wrapHeading (entity.heading + turnRate * deltaSeconds) }
  else entity

/-- The altitude block of `updateDynamics`. -/
def updateAltitude (entity : SimulatedEntity) (deltaSeconds : ℚ) : SimulatedEntity :=
  if |entity.altitude - entity.targetAlt| > 100 then
    let altDiff := entity.targetAlt - entity.altitude
    let climbRate : ℚ := if altDiff > 0 then 2000 else -2000
    { entity with
      climbRate := climbRate
      altitude := entity.altitude + (climbRate / 60) * deltaSeconds }
  else entity

/-- The speed block of `updateDynamics`. -/
def updateSpeed (entity : SimulatedEntity) (deltaSeconds : ℚ) : SimulatedEntity :=
  if |entity.speed - entity.targetSpeed| > 10 then
    let speedDiff := entity.targetSpeed - entity.speed
    let acceleration : ℚ := if speedDiff > 0 then 50 else -50
    { entity with speed := entity.speed + (acceleration / 60) * deltaSeconds }
  else entity

/-- Method `NetworkedEWAM::updateDynamics`: heading, then altitude, then speed. -/
def updateDynamics (entity : SimulatedEntity) (deltaMs : Int) : SimulatedEntity :=
  let deltaSeconds : ℚ := (deltaMs : ℚ) / 1000
  updateSpeed (updateAltitude (updateHeading entity deltaSeconds) deltaSeconds) deltaSeconds

/-- Function `qBound(min, val, max)`, that is `qMax(min, qMin(max, val))`. -/
def qBound (lo val hi : ℚ) : ℚ :=
  max lo (min hi val)

/-- Method `NetworkedEWAM::setNewTargets` in exact arithmetic; `r1`, `r2`, `r3` are the
three `qrand()` results in the order of the calls. `setNewTargetsDouble` below rounds
the sums as the doubles of the source do. -/
def setNewTargets (entity : SimulatedEntity) (r1 r2 r3 : Nat) : SimulatedEntity :=
  let targetAlt := qBound 20000 (entity.altitude + (((r1 % 10000 : Nat) : Int) - 5000 : Int)) 40000
  let targetSpeed := qBound 300 (entity.speed + (((r2 % 100 : Nat) : Int) - 50 : Int)) 600
  let targetHeading := wrapHeading (entity.heading + (((r3 % 120 : Nat) : Int) - 60 : Int))
  { entity with targetAlt := targetAlt, targetSpeed := targetSpeed, targetHeading := targetHeading }

/-! ### Double arithmetic -/

/-- Rounding a rational to the nearest integer, ties to the even one. -/
def roundNearestEven (q : ℚ) : Int :=
  let f := ⌊q⌋
  if q - f < 1 / 2 then f
  else if 1 / 2 < q - f then f + 1
  else if f % 2 = 0 then f else f + 1

/-- Rounding to the nearest multiple of `2 ^ e`, ties to the even multiple. -/
def roundToGrid (e : Int) (x : ℚ) : ℚ :=
  (roundNearestEven (x / (2 : ℚ) ^ e) : ℚ) * (2 : ℚ) ^ e

/-- The double nearest to a rational, ties to even: for `2 ^ k ≤ |x| < 2 ^ (k + 1)` the
doubles are the multiples of `2 ^ (k - 52)` (a significand of 53 bits). The exponent
range is left unbounded: the sums rounded here are far from overflow, and a sum of two
doubles is exact where it would be subnormal. -/
def roundDouble (x : ℚ) : ℚ :=
  if x = 0 then 0 else roundToGrid (Int.log 2 |x| - 52) x

/-- The two wrap steps of `setNewTargets` as the source computes them: `-= 360` and
`+= 360` each give the double nearest to the exact result. -/
def wrapHeadingDouble (h : ℚ) : ℚ :=
  let h1 := if h ≥ 360 then roundDouble (h - 360) else h
  if h1 < 0 then roundDouble (h1 + 360) else h1

/-- Method `NetworkedEWAM::setNewTargets` in the double arithmetic of the source: every
sum is the double nearest to the exact sum (the offsets are integers, exact as doubles,
and `qBound` only compares). -/
def setNewTargetsDouble (entity : SimulatedEntity) (r1 r2 r3 : Nat) : SimulatedEntity :=
  let targetAlt := qBound 20000
    (roundDouble (entity.altitude + (((r1 % 10000 : Nat) : Int) - 5000 : Int))) 40000
  let targetSpeed := qBound 300
    (roundDouble (entity.speed + (((r2 % 100 : Nat) : Int) - 50 : Int))) 600
  let targetHeading := wrapHeadingDouble
    (roundDouble (entity.heading + (((r3 % 120 : Nat) : Int) - 60 : Int)))
  { entity with targetAlt := targetAlt, targetSpeed := targetSpeed, targetHeading := targetHeading }

/-- The double printed as 59.99999999999999, that is `60 - 2 ^ (-47)`. -/
def headingBelow60 : ℚ := 8444249301319679 / 140737488355328

/-- Clamping a value into `[lo, hi]`, as the specification words it. -/
def clamp (x lo hi : ℚ) : ℚ :=
  if x < lo then lo else if hi < x then hi else x

/-- The one-tick increments of the three channels: 3 deg/s, 2000 ft/min, 50 kt/min. -/
def headingIncrement (deltaMs : Int) : ℚ := 3 * ((deltaMs : ℚ) / 1000)

def altitudeIncrement (deltaMs : Int) : ℚ := (2000 / 60) * ((deltaMs : ℚ) / 1000)

def speedIncrement (deltaMs : Int) : ℚ := (50 / 60) * ((deltaMs : ℚ) / 1000)

/-- The shortest angular distance between two headings of `[0, 360)`. -/
def angularDistance (a b : ℚ) : ℚ :=
  min |a - b| (360 - |a - b|)

/-- The signed angle left from the heading to its target after a turn of one increment
in the turn direction (negative after a right turn past the target, positive after a
left turn past it). -/
def headingResidual (e : SimulatedEntity) (deltaMs : Int) : ℚ :=
  headingDiff e.heading e.targetHeading -
    turnDirection e.heading e.targetHeading * headingIncrement deltaMs

/-- An entity with the given kinematic fields, for evaluating the engine. -/
def sampleEntity (heading targetHeading altitude targetAlt speed targetSpeed : ℚ) :
    SimulatedEntity :=
  { id := "TEST01"
    type := "F35"
    lat := -37.814
    lon := 144.963
    altitude := altitude
    speed := speed
    heading := heading
    turnRate := 0
    climbRate := 0
    priority := "MED"
    jam := false
    category := 0
    targetAlt := targetAlt
    targetSpeed := targetSpeed
    targetHeading := targetHeading }

/-! ## Scenario loader -/

/-- Method `NetworkedEWAM::createSimulatedEntity`; `rSpeed` and `rHeading` are the two `qrand()`
results. -/
def createSimulatedEntity (ext : External) (m : NetworkedEWAM) (id type : String)
    (lat lon altitude : ℚ) (rSpeed rHeading : Nat) : NetworkedEWAM :=
  let speed : ℚ := ((400 + rSpeed % 200 : Nat) : ℚ)
  let heading : ℚ := ((rHeading % 360 : Nat) : ℚ)
  let entity : SimulatedEntity :=
    { id := id
      type := type
      lat := lat
      lon := lon
      altitude := altitude
      speed := speed
      heading := heading
      turnRate := 0
      climbRate := 0
      priority := "MED"
      jam := false
      category := ext.getCategory type
      targetAlt := altitude
      targetSpeed := speed
      targetHeading := heading }
  { m with entities := qmapSet id entity m.entities }

/-- Method `NetworkedEWAM::createSimulatedEmitter`; `rMin` and `rMax` are the `qrand()` results
used for `freqMin` and `freqMax`. -/
def createSimulatedEmitter (ext : External) (m : NetworkedEWAM) (id type category : String)
    (lat lon : ℚ) (rMin rMax : Nat) : NetworkedEWAM :=
  let emitter : Emitter :=
    { id := id
      type := type
      category := category
      lat := lat
      lon := lon
      freqMin := 8 + ((rMin % 20 : Nat) : ℚ) / 10
      freqMax := 10 + ((rMax % 20 : Nat) : ℚ) / 10
      active := true
      eaPriority := "MED"
      esPriority := "MED"
      jamResponsible := true
      reactiveEligible := true
      preemptiveEligible := false
      consentRequired := false
      jam := false
      jamIneffective := ext.jamIneffective
      jamEffective := ext.jamEffective }
  { m with emitters := qmapSet id emitter m.emitters }

/-- One iteration of the convoy loop for `i` (0, 1, 2), drawing from position `k`:
latitude, longitude and altitude offsets, then the two draws of the entity. -/
def convoyEntity (ext : External) (m : NetworkedEWAM) (i : Nat) (draw : Nat → Nat)
    (k : Nat) : NetworkedEWAM :=
  createSimulatedEntity ext m ("CONV0" ++ toString (i + 1)) "C17"
    (-37.814 + ((((draw k % 100 : Nat) : Int) - 50 : Int) : ℚ) * 0.0001)
    (144.963 + ((((draw (k + 1) % 100 : Nat) : Int) - 50 : Int) : ℚ) * 0.0001)
    ((28000 + draw (k + 2) % 4000 : Nat) : ℚ)
    (draw (k + 3)) (draw (k + 4))

/-- Method `NetworkedEWAM::initializeSimulation`; `draw k` is the result of the `k`-th call of
`qrand()`, calls in one argument list counted from left to right. -/
def initializeSimulation (ext : External) (m : NetworkedEWAM) (scenario : String)
    (draw : Nat → Nat) : NetworkedEWAM :=
  if scenario = "melbourne" then
    let m1 := createSimulatedEntity ext m "FAST01" "F35" (-37.814) 144.963 25000 (draw 0) (draw 1)
    let m2 := createSimulatedEntity ext m1 "SLOW02" "P8" (-37.714) 144.863 30000 (draw 2) (draw 3)
    let m3 := createSimulatedEntity ext m2 "SURV03" "E7" (-37.914) 144.863 35000 (draw 4) (draw 5)
    let m4 := createSimulatedEmitter ext m3 "RADAR01" "RADAR" "TA" (-37.804) 144.953 (draw 6) (draw 7)
    createSimulatedEmitter ext m4 "RADAR02" "RADAR" "MG" (-37.714) 144.963 (draw 8) (draw 9)
  else if scenario = "convoy" then
    let m1 := convoyEntity ext m 0 draw 0
    let m2 := convoyEntity ext m1 1 draw 5
    let m3 := convoyEntity ext m2 2 draw 10
    let m4 := createSimulatedEntity ext m3 "ESC01" "F22" (-37.814 + 0.02) (144.963 + 0.02) 35000
      (draw 15) (draw 16)
    createSimulatedEntity ext m4 "ESC02" "F22" (-37.814 - 0.02) (144.963 - 0.02) 35000
      (draw 17) (draw 18)
  else if scenario = "combat" then
    let m1 := createSimulatedEntity ext m "RED01" "F35" (-37.714) 144.863 30000 (draw 0) (draw 1)
    let m2 := createSimulatedEntity ext m1 "RED02" "F35" (-37.724) 144.873 32000 (draw 2) (draw 3)
    let m3 := createSimulatedEntity ext m2 "BLUE01" "F22" (-37.914) 144.963 35000 (draw 4) (draw 5)
    let m4 := createSimulatedEntity ext m3 "BLUE02" "F22" (-37.924) 144.973 33000 (draw 6) (draw 7)
    let m5 := createSimulatedEntity ext m4 "AWC01" "E7" (-37.814) 145.063 38000 (draw 8) (draw 9)
    let m6 := createSimulatedEmitter ext m5 "JAM01" "JAMMER" "EW" (-37.814) 144.913 (draw 10) (draw 11)
    createSimulatedEmitter ext m6 "JAM02" "JAMMER" "EW" (-37.714) 144.863 (draw 12) (draw 13)
  else if scenario = "custom" then
    let m1 := createSimulatedEntity ext m "TEST01" "F35" (-37.814) 144.963 30000 (draw 0) (draw 1)
    createSimulatedEmitter ext m1 "TEST_RADAR" "RADAR" "TA" (-37.804) 144.953 (draw 2) (draw 3)
  else m

/-- A choice of the external parts, for evaluating the loader. -/
def sampleExternal : External :=
  { getCategory := (fun _ => 0)
    jamIneffective := false
    jamEffective := false }

/-! ## Server manager -/

/-- Method `NetworkedEWAM::startServer`; `bindOk` tells whether the port can be bound. The
result is the manager afterwards and the returned value. -/
def startServer (m : NetworkedEWAM) (port : Nat) (bindOk : Bool) : NetworkedEWAM × Bool :=
  let server : QTcpServer :=
    match m.server with
    | none => { listening := false, port := 0 }
    | some s => s
  let r := server.listen port bindOk
  if !r.1 then
    ({ m with server := some r.2 }, false)
  else
    ({ m with server := some r.2 }, true)

/-- Method `NetworkedEWAM::stopServer`. -/
def stopServer (m : NetworkedEWAM) : NetworkedEWAM × List PeerCall :=
  match m.server with
  | none => (m, [])
  | some s =>
    ({ m with server := some s.close, clients := [] },
     m.clients.map PeerCall.disconnectFromHost)

/-- Method `NetworkedEWAM::onNewConnection`; `pending` is what `nextPendingConnection` returns. -/
def onNewConnection (m : NetworkedEWAM) (pending : Option Nat) : NetworkedEWAM :=
  match pending with
  | none => m
  | some clientSocket => { m with clients := m.clients ++ [clientSocket] }

/-- The echo loop of `onReadyRead` for one line: a write and a flush on every client. -/
def echoToAll (clients : List Nat) (data : Bytes) : List PeerCall :=
  clients.flatMap (fun client => [PeerCall.write client data, PeerCall.flush client])

/-- Method `NetworkedEWAM::onReadyRead`; `sender` is the socket that emitted the signal and
`lines` are the results of the successive `readLine` calls made while bytes are
available. The result is the manager afterwards and the calls made on the peers. -/
def onReadyRead (m : NetworkedEWAM) (sender : Option Nat) (lines : List Bytes) :
    NetworkedEWAM × List PeerCall :=
  match sender with
  | none => (m, [])
  | some _clientSocket =>
    (m, lines.flatMap (fun data => if data ≠ [] then echoToAll m.clients data else []))

/-- Method `NetworkedEWAM::onClientDisconnected`. -/
def onClientDisconnected (m : NetworkedEWAM) (sender : Option Nat) : NetworkedEWAM :=
  match sender with
  | none => m
  | some clientSocket => { m with clients := m.clients.erase clientSocket }

/-- The writes among the calls on the peers, as pairs of peer and data. -/
def peerWrites : List PeerCall → List (Nat × Bytes)
  | [] => []
  | PeerCall.write peer data :: rest => (peer, data) :: peerWrites rest
  | _ :: rest => peerWrites rest

/-! ## Simulation tick and protocol codec -/

/-- The functions of the C math library that the simulation calls, and the constant
`M_PI`, as parameters with exact rational values. -/
structure Libm where
  sin : ℚ → ℚ
  cos : ℚ → ℚ
  asin : ℚ → ℚ
  atan2 : ℚ → ℚ → ℚ
  pi : ℚ

/-- Method `NetworkedEWAM::updatePosition`. -/
def updatePosition (lm : Libm) (entity : SimulatedEntity) (distanceKm : ℚ) : SimulatedEntity :=
  let R : ℚ := 6371
  let lat1 := entity.lat * lm.pi / 180
  let lon1 := entity.lon * lm.pi / 180
  let bearing := entity.heading * lm.pi / 180
  let angular_distance := distanceKm / R
  let lat2 := lm.asin (lm.sin lat1 * lm.cos angular_distance +
    lm.cos lat1 * lm.sin angular_distance * lm.cos bearing)
  let lon2 := lon1 + lm.atan2 (lm.sin bearing * lm.sin angular_distance * lm.cos lat1)
    (lm.cos angular_distance - lm.sin lat1 * lm.sin lat2)
  { entity with lat := lat2 * 180 / lm.pi, lon := lon2 * 180 / lm.pi }

/-- The entity branch of `updateSimulation` for one entity, up to the optional
re-targeting; `draw k` is the next `qrand()` result. The result is the entity afterwards
and the position of the next draw. -/
def entityTick (lm : Libm) (entity : SimulatedEntity) (deltaMs : Int) (draw : Nat → Nat)
    (k : Nat) : SimulatedEntity × Nat :=
  let deltaHours : ℚ := (deltaMs : ℚ) / (1000 * 60 * 60)
  let distance := entity.speed * deltaHours
  let distanceKm := distance * 1.852
  let e1 := updatePosition lm entity distanceKm
  let e2 := updateDynamics e1 deltaMs
  if draw k % 100 < 5 then
    (setNewTargets e2 (draw (k + 1)) (draw (k + 2)) (draw (k + 3)), k + 4)
  else
    (e2, k + 1)

/-- The emitter branch of `updateSimulation` for one emitter, before the record is sent;
`T` is what `QDateTime::currentMSecsSinceEpoch()` returns. -/
def emitterTick (lm : Libm) (emitter : Emitter) (T : Int) : Emitter :=
  let radius : ℚ := 0.01
  let angle : ℚ := (T : ℚ) / 10000
  { emitter with
    lat := emitter.lat + radius * lm.sin angle
    lon := emitter.lon + radius * lm.cos angle }

/-- The object that `sendEntityUpdate` builds (`json[key] = value`, in the order of the
source). -/
def entityJson (entity : SimulatedEntity) : QJsonObject :=
  let json : QJsonObject := []
  let json := qmapSet "id" (QJsonValue.str entity.id) json
  let json := qmapSet "type" (QJsonValue.str entity.type) json
  let json := qmapSet "lat" (QJsonValue.num entity.lat) json
  let json := qmapSet "lon" (QJsonValue.num entity.lon) json
  let json := qmapSet "altitude" (QJsonValue.num entity.altitude) json
  let json := qmapSet "speed" (QJsonValue.num entity.speed) json
  let json := qmapSet "heading" (QJsonValue.num entity.heading) json
  let json := qmapSet "priority" (QJsonValue.str entity.priority) json
  let json := qmapSet "jam" (QJsonValue.bool entity.jam) json
  let json := qmapSet "ghost" (QJsonValue.bool false) json
  let json := qmapSet "category" (QJsonValue.int entity.category) json
  let json := qmapSet "state" (QJsonValue.str "active") json
  qmapSet "apd" (QJsonValue.str entity.priority) json

/-- Method `NetworkedEWAM::sendEntityUpdate`: the manager afterwards and the calls made
on the socket. -/
def sendEntityUpdate (toJson : QJsonObject → Bytes) (m : NetworkedEWAM)
    (entity : SimulatedEntity) (written : Int) (flushed : Bool) :
    NetworkedEWAM × List SocketCall :=
  let r := sendJson toJson m (entityJson entity) written flushed
  (r.1, r.2.2)

/-- The object that `sendEmitterUpdate` builds. -/
def emitterJson (emitter : Emitter) : QJsonObject :=
  let json : QJsonObject := []
  let json := qmapSet "id" (QJsonValue.str emitter.id) json
  let json := qmapSet "type" (QJsonValue.str emitter.type) json
  let json := qmapSet "category" (QJsonValue.str emitter.category) json
  let json := qmapSet "lat" (QJsonValue.num emitter.lat) json
  let json := qmapSet "lon" (QJsonValue.num emitter.lon) json
  let json := qmapSet "freqMin" (QJsonValue.num emitter.freqMin) json
  let json := qmapSet "freqMax" (QJsonValue.num emitter.freqMax) json
  let json := qmapSet "active" (QJsonValue.bool emitter.active) json
  let json := qmapSet "eaPriority" (QJsonValue.str emitter.eaPriority) json
  let json := qmapSet "esPriority" (QJsonValue.str emitter.esPriority) json
  let json := qmapSet "jamResponsible" (QJsonValue.bool emitter.jamResponsible) json
  let json := qmapSet "reactiveEligible" (QJsonValue.bool emitter.reactiveEligible) json
  let json := qmapSet "preemptiveEligible" (QJsonValue.bool emitter.preemptiveEligible) json
  let json := qmapSet "consentRequired" (QJsonValue.bool emitter.consentRequired) json
  let json := qmapSet "jam" (QJsonValue.bool emitter.jam) json
  let json := qmapSet "altitude" (QJsonValue.num 0) json
  let json := qmapSet "heading" (QJsonValue.num 0) json
  let json := qmapSet "speed" (QJsonValue.num 0) json
  let json := qmapSet "jamIneffective" (QJsonValue.bool emitter.jamIneffective) json
  qmapSet "jamEffective" (QJsonValue.bool emitter.jamEffective) json

/-- Method `NetworkedEWAM::sendEmitterUpdate`. -/
def sendEmitterUpdate (toJson : QJsonObject → Bytes) (m : NetworkedEWAM)
    (emitter : Emitter) (written : Int) (flushed : Bool) :
    NetworkedEWAM × List SocketCall :=
  let r := sendJson toJson m (emitterJson emitter) written flushed
  (r.1, r.2.2)

/-- Method `NetworkedEWAM::sendTestMessage`; `timestamp` is the current time in ISO
format. -/
def sendTestMessage (toJson : QJsonObject → Bytes) (m : NetworkedEWAM)
    (message timestamp : String) (written : Int) (flushed : Bool) :
    NetworkedEWAM × List SocketCall :=
  let json : QJsonObject := []
  let json := qmapSet "type" (QJsonValue.str "test") json
  let json := qmapSet "message" (QJsonValue.str message) json
  let json := qmapSet "timestamp" (QJsonValue.str timestamp) json
  let r := sendJson toJson m json written flushed
  (r.1, r.2.2)

/-- What one call of `updateSimulation` takes from outside: `draw k` is the result of the
`k`-th `qrand()` call, `now i` that of the `i`-th reading of the clock in the emitter
loop, `written j` and `flushed j` what the socket returns for the `j`-th record. -/
structure TickEnv where
  draw : Nat → Nat
  now : Nat → Int
  written : Nat → Int
  flushed : Nat → Bool

/-- The entity loop of `updateSimulation` over the entries of the map in key order, from
draw `k` and record `j`: the entries afterwards, the calls made on the socket and the
number of the next record. -/
def updateEntities (lm : Libm) (toJson : QJsonObject → Bytes) (m : NetworkedEWAM)
    (deltaMs : Int) (env : TickEnv) :
    List (String × SimulatedEntity) → Nat → Nat →
      List (String × SimulatedEntity) × List SocketCall × Nat
  | [], _, j => ([], [], j)
  | (key, entity) :: rest, k, j =>
    let r := entityTick lm entity deltaMs env.draw k
    let sent := sendEntityUpdate toJson m r.1 (env.written j) (env.flushed j)
    let tail := updateEntities lm toJson m deltaMs env rest r.2 (j + 1)
    ((key, r.1) :: tail.1, sent.2 ++ tail.2.1, tail.2.2)

/-- The emitter loop of `updateSimulation`, from clock reading `i` and record `j`. -/
def updateEmitters (lm : Libm) (toJson : QJsonObject → Bytes) (m : NetworkedEWAM)
    (env : TickEnv) :
    List (String × Emitter) → Nat → Nat → List (String × Emitter) × List SocketCall
  | [], _, _ => ([], [])
  | (key, emitter) :: rest, i, j =>
    let e1 := emitterTick lm emitter (env.now i)
    let sent := sendEmitterUpdate toJson m e1 (env.written j) (env.flushed j)
    let tail := updateEmitters lm toJson m env rest (i + 1) (j + 1)
    ((key, e1) :: tail.1, sent.2 ++ tail.2)

/-- Method `NetworkedEWAM::updateSimulation`: the manager afterwards and the calls made
on the socket. -/
def updateSimulation (lm : Libm) (toJson : QJsonObject → Bytes) (m : NetworkedEWAM)
    (deltaMs : Int) (env : TickEnv) : NetworkedEWAM × List SocketCall :=
  let es := updateEntities lm toJson m deltaMs env m.entities 0 0
  let ems := updateEmitters lm toJson m env m.emitters 0 es.2.2
  ({ m with entities := es.1, emitters := ems.1 }, es.2.1 ++ ems.2)

/-- The ranges of the entity range invariant: speed and target speed in `[300, 600]`,
altitude and target altitude in `[20000, 40000]`. -/
def InRange (e : SimulatedEntity) : Prop :=
  (300 ≤ e.speed ∧ e.speed ≤ 600) ∧ (300 ≤ e.targetSpeed ∧ e.targetSpeed ≤ 600) ∧
    (20000 ≤ e.altitude ∧ e.altitude ≤ 40000) ∧ (20000 ≤ e.targetAlt ∧ e.targetAlt ≤ 40000)

instance (e : SimulatedEntity) : Decidable (InRange e) := by
  unfold InRange
  infer_instance

/-- A choice of the math library, for evaluating the tick. -/
def sampleLibm : Libm :=
  { sin := (fun _ => 3 / 5)
    cos := (fun _ => 4 / 5)
    asin := (fun x => x)
    atan2 := (fun y _ => y)
    pi := 22 / 7 }

/-- The keys of a JSON object. -/
def jsonKeys (json : QJsonObject) : List String :=
  json.map Prod.fst

/-- The value of a JSON object at a key. -/
def jsonValue (json : QJsonObject) (key : String) : Option QJsonValue :=
  (json.find? (fun p => p.1 == key)).map Prod.snd

/-! ## Program entry (`main.cpp`) -/

/-- The values that `main` reads from the command line. -/
structure Options where
  host : String
  port : Nat
  scenario : String
  interval : Int
  verbose : Bool
  serverMode : Bool
  testMode : Bool
  testMessage : String
  noReconnect : Bool
  reconnectSeconds : Int

/-- The defaults of the command-line options. -/
def Options.default : Options :=
  { host := "localhost"
    port := 12345
    scenario := "melbourne"
    interval := 1000
    verbose := false
    serverMode := false
    testMode := false
    testMessage := "Hello World"
    noReconnect := false
    reconnectSeconds := 5 }

/-- The function `main` up to the start of the event loop: the manager `sender` it has
built and the calls made on the client socket, or `none` when `main` returns 1 before.
The local `autoReconnect` is only used for a console message. -/
def mainSetup (ext : External) (opts : Options) (draw : Nat → Nat) (bindOk : Bool) :
    Option (NetworkedEWAM × List SocketCall) :=
  let _autoReconnect : Bool := !opts.noReconnect
  let reconnectInterval : Int := opts.reconnectSeconds * 1000
  if (!opts.serverMode && !opts.testMode) &&
      !(["melbourne", "convoy", "combat", "custom"].contains opts.scenario) then
    none
  else
    let sender := NetworkedEWAM.construct
    let sender := if !opts.serverMode then setReconnectInterval sender reconnectInterval
      else sender
    if opts.serverMode then
      let r := startServer sender opts.port bindOk
      if !r.2 then none else some (r.1, [])
    else if opts.testMode then
      some (connectToHost sender opts.host opts.port)
    else
      let r := connectToHost sender opts.host opts.port
      some (initializeSimulation ext r.1 opts.scenario draw, r.2)

/-- The emitter after the ticks at the clock readings `Ts`, in turn. -/
def emitterTicks (lm : Libm) (emitter : Emitter) (Ts : List Int) : Emitter :=
  Ts.foldl (emitterTick lm) emitter

/-- The two assignments of the emitter loop of `updateSimulation`, on a position
`(lat, lon)`, over any field with its sine and cosine. -/
def driftStep {K : Type} [Field K] (sin cos : K → K) (pos : K × K) (T : Int) : K × K :=
  let radius : K := 0.01
  let angle : K := (T : K) / 10000
  (pos.1 + radius * sin angle, pos.2 + radius * cos angle)

/-- The position after the ticks at the clock readings `Ts`, in turn. -/
def driftSteps {K : Type} [Field K] (sin cos : K → K) (pos : K × K) (Ts : List Int) : K × K :=
  Ts.foldl (driftStep sin cos) pos

/-! ## Reachable states -/

/-- The parts outside the sources that the operations of the manager use. -/
structure Context where
  ext : External
  lm : Libm
  toJson : QJsonObject → Bytes

/-- The public methods and the slots of `NetworkedEWAM`, with what each takes from its
caller or from Qt, and the socket changing its state. -/
inductive Op where
  | initializeSimulation (scenario : String) (draw : Nat → Nat)
  | updateSimulation (deltaMs : Int) (env : TickEnv)
  | connectToHost (host : String) (port : Nat)
  | setReconnectInterval (msecs : Int)
  | startServer (port : Nat) (bindOk : Bool)
  | stopServer
  | sendTestMessage (message timestamp : String) (written : Int) (flushed : Bool)
  | sendJson (json : QJsonObject) (written : Int) (flushed : Bool)
  | onNewConnection (pending : Option Nat)
  | onReadyRead (sender : Option Nat) (lines : List Bytes)
  | onClientDisconnected (sender : Option Nat)
  | onConnected
  | onDisconnected
  | onError (error : SocketError)
  | tryReconnect
  | socketStateChanged (s : SocketState)

/-- The manager after one operation. -/
def applyOp (cx : Context) (m : NetworkedEWAM) : Op → NetworkedEWAM
  | Op.initializeSimulation scenario draw => initializeSimulation cx.ext m scenario draw
  | Op.updateSimulation deltaMs env => (updateSimulation cx.lm cx.toJson m deltaMs env).1
  | Op.connectToHost host port => (connectToHost m host port).1
  | Op.setReconnectInterval msecs => setReconnectInterval m msecs
  | Op.startServer port bindOk => (startServer m port bindOk).1
  | Op.stopServer => (stopServer m).1
  | Op.sendTestMessage message timestamp written flushed =>
    (sendTestMessage cx.toJson m message timestamp written flushed).1
  | Op.sendJson json written flushed => (sendJson cx.toJson m json written flushed).1
  | Op.onNewConnection pending => onNewConnection m pending
  | Op.onReadyRead sender lines => (onReadyRead m sender lines).1
  | Op.onClientDisconnected sender => onClientDisconnected m sender
  | Op.onConnected => onConnected m
  | Op.onDisconnected => onDisconnected m
  | Op.onError error => onError m error
  | Op.tryReconnect => (tryReconnect m).1
  | Op.socketStateChanged s => { m with socketState := s }

/-- The manager after a sequence of operations. -/
def runOps (cx : Context) (m : NetworkedEWAM) (ops : List Op) : NetworkedEWAM :=
  ops.foldl (applyOp cx) m

/-! ## Theorems -/

theorem onError_refused_eq_onDisconnected (m : NetworkedEWAM) :
    onError m SocketError.ConnectionRefusedError = onDisconnected m := by
  unfold onError onDisconnected
  by_cases h : (m.autoReconnect && decide (m.reconnectAttempts < MAX_RECONNECT_ATTEMPTS)) = true
  · simp [h]
  · simp [h]

theorem onDisconnected_reconnectAttempts (m : NetworkedEWAM) :
    (onDisconnected m).reconnectAttempts = m.reconnectAttempts := by
  unfold onDisconnected
  split <;> rfl

theorem onDisconnected_autoReconnect (m : NetworkedEWAM) :
    (onDisconnected m).autoReconnect = m.autoReconnect := by
  unfold onDisconnected
  split <;> rfl

theorem onDisconnected_timer_stays_active (m : NetworkedEWAM)
    (h : m.reconnectTimer.active = true) : (onDisconnected m).reconnectTimer.active = true := by
  unfold onDisconnected
  split
  · rfl
  · exact h

theorem onDisconnected_timer_started (m : NetworkedEWAM) (ha : m.autoReconnect = true)
    (hn : m.reconnectAttempts < MAX_RECONNECT_ATTEMPTS) :
    (onDisconnected m).reconnectTimer = { active := true, interval := m.reconnectInterval } := by
  unfold onDisconnected
  simp [ha, hn, QTimer.start]

theorem countConnects_cons_connect (host : String) (port : Nat) (cs : List SocketCall) :
    countConnects (SocketCall.connectToHost host port :: cs) = countConnects cs + 1 := by
  simp [countConnects, SocketCall.isConnect]

theorem countConnects_nil : countConnects [] = 0 := rfl

/-- A trace that starts with an explicit connect. -/
theorem runTrace_connect (m : NetworkedEWAM) (host : String) (port : Nat)
    (rest : List Event) :
    runTrace m (Event.connectToHost host port :: rest) =
      (runTrace (connectToHost m host port).1 rest).map
        (fun r => (r.1, SocketCall.connectToHost host port :: r.2)) := by
  simp only [runTrace, step]
  cases runTrace (connectToHost m host port).1 rest with
  | none => rfl
  | some r => simp [connectToHost]

/-- A trace that starts with an error signal. -/
theorem runTrace_error (m : NetworkedEWAM) (e : SocketError) (rest : List Event) :
    runTrace m (Event.error e :: rest) = runTrace (onError m e) rest := by
  simp only [runTrace, step]
  cases runTrace (onError m e) rest with
  | none => rfl
  | some r => rfl

/-- One refused round, taken while the reconnect timer is running. -/
theorem runTrace_refused_round (m : NetworkedEWAM) (rest : List Event)
    (hact : m.reconnectTimer.active = true) :
    runTrace m (Event.timeout :: Event.error SocketError.ConnectionRefusedError :: rest) =
      (runTrace (onDisconnected (tryReconnect m).1) rest).map
        (fun r => (r.1, (tryReconnect m).2 ++ r.2)) := by
  simp only [runTrace, step, onError_refused_eq_onDisconnected, hact, if_true]
  cases runTrace (onDisconnected (tryReconnect m).1) rest with
  | none => rfl
  | some r => simp

/-- While the reconnect timer runs every refused round is enabled: `n` rounds issue `n`
connect attempts, raise the attempt counter by `n` and leave the timer running. -/
theorem runTrace_refusedRounds (n : Nat) :
    ∀ m : NetworkedEWAM, m.reconnectTimer.active = true →
      ∃ m1 cs, runTrace m (refusedRounds n) = some (m1, cs) ∧
        countConnects cs = n ∧
        m1.reconnectAttempts = m.reconnectAttempts + (n : Nat) ∧
        m1.reconnectTimer.active = true ∧
        m1.autoReconnect = m.autoReconnect := by
  induction n with
  | zero =>
    intro m h
    exact ⟨m, [], rfl, rfl, by simp, h, rfl⟩
  | succ k ih =>
    intro m h
    have hact : (onDisconnected (tryReconnect m).1).reconnectTimer.active = true :=
      onDisconnected_timer_stays_active _ (by simpa [tryReconnect] using h)
    obtain ⟨m1, cs, hrun, hcount, hatt, htimer, hauto⟩ :=
      ih (onDisconnected (tryReconnect m).1) hact
    refine ⟨m1, (tryReconnect m).2 ++ cs, ?_, ?_, ?_, htimer, ?_⟩
    · rw [refusedRounds, runTrace_refused_round m _ h, hrun]
      rfl
    · simp [tryReconnect, countConnects_cons_connect, hcount]
    · rw [hatt, onDisconnected_reconnectAttempts]
      simp [tryReconnect]
      ring
    · rw [hauto, onDisconnected_autoReconnect]
      rfl

/-- C1, evaluated on the code: the manager never gives up. On the trace of an explicit
connect and six reconnect rounds, all seven connect attempts refused, the socket is asked
to connect 7 times, the attempt counter reaches 6 and the reconnect timer is still
running; and for every `n` the trace with `n` refused reconnect rounds is enabled
throughout, issues `n + 1` connect attempts and ends with the timer running, so that
`tryReconnect` fires once more. -/
theorem reconnect_never_gives_up :
    runTrace NetworkedEWAM.construct (refusedTrace "localhost" 12345 6) =
        some (refusedState 6,
          List.replicate 7 (SocketCall.connectToHost "localhost" 12345)) ∧
      countConnects (List.replicate 7 (SocketCall.connectToHost "localhost" 12345)) = 7 ∧
      ∀ (host : String) (port n : Nat), ∃ m cs,
        runTrace NetworkedEWAM.construct (refusedTrace host port n) = some (m, cs) ∧
          countConnects cs = n + 1 ∧
          m.reconnectAttempts = (n : Nat) ∧
          m.reconnectTimer.active = true ∧
          m.autoReconnect = true ∧
          step m Event.timeout = some (tryReconnect m) := by
  refine ⟨by rfl, by rfl, ?_⟩
  intro host port n
  have hstart : (onDisconnected (connectToHost NetworkedEWAM.construct host port).1
      ).reconnectTimer.active = true := by
    rw [onDisconnected_timer_started _ rfl (by show (0 : Int) < 5; decide)]
  obtain ⟨m, cs, hrun, hcount, hatt, htimer, hauto⟩ :=
    runTrace_refusedRounds n _ hstart
  refine ⟨m, SocketCall.connectToHost host port :: cs, ?_, ?_, ?_, htimer, ?_, ?_⟩
  · rw [refusedTrace, runTrace_connect, runTrace_error, onError_refused_eq_onDisconnected,
      hrun]
    rfl
  · rw [countConnects_cons_connect, hcount]
  · rw [hatt, onDisconnected_reconnectAttempts]
    simp [connectToHost]
  · rw [hauto, onDisconnected_autoReconnect]
    rfl
  · simp [step, htimer]

/-- C2: while the socket is not in `ConnectedState`, `sendJson` returns false, makes no
call on the socket and leaves the manager as it was, whatever the payload and whatever
`autoReconnect` and `reconnectAttempts` are. -/
theorem sendJson_not_connected (toJson : QJsonObject → Bytes) (m : NetworkedEWAM)
    (json : QJsonObject) (written : Int) (flushed : Bool)
    (h : m.socketState ≠ SocketState.ConnectedState) :
    sendJson toJson m json written flushed = (m, false, []) := by
  unfold sendJson
  rw [if_pos h]
  split <;> rfl

theorem sendJson_not_connected_witness :
    NetworkedEWAM.construct.socketState ≠ SocketState.ConnectedState ∧
      sendJson (fun _ => [123, 125]) NetworkedEWAM.construct
          [("id", QJsonValue.str "TEST01")] 10 true =
        (NetworkedEWAM.construct, false, []) :=
  ⟨by decide, sendJson_not_connected _ _ _ _ _ (by decide)⟩

/-- C3, evaluated on the code: in the state reached by an explicit connect and five
refused rounds the attempt counter is 5, so the reconnect condition is false, yet after
`onDisconnected` (and after `onError` with connection refused) the reconnect timer is
still running and its next timeout issues another connect attempt. -/
theorem onDisconnected_at_max_attempts_keeps_timer :
    runTrace NetworkedEWAM.construct (refusedTrace "localhost" 12345 5) =
        some (refusedState 5,
          List.replicate 6 (SocketCall.connectToHost "localhost" 12345)) ∧
      ¬ ((refusedState 5).autoReconnect = true ∧
          (refusedState 5).reconnectAttempts < MAX_RECONNECT_ATTEMPTS) ∧
      onDisconnected (refusedState 5) = refusedState 5 ∧
      onError (refusedState 5) SocketError.ConnectionRefusedError = refusedState 5 ∧
      (onDisconnected (refusedState 5)).reconnectTimer.active = true ∧
      step (onDisconnected (refusedState 5)) Event.timeout =
        some (refusedState 6, [SocketCall.connectToHost "localhost" 12345]) := by
  refine ⟨by rfl, by decide, by rfl, by rfl, by rfl, by rfl⟩

/-! ### Kinematics -/

theorem updateAltitude_heading (e : SimulatedEntity) (dt : ℚ) :
    (updateAltitude e dt).heading = e.heading := by
  unfold updateAltitude
  split <;> rfl

theorem updateSpeed_heading (e : SimulatedEntity) (dt : ℚ) :
    (updateSpeed e dt).heading = e.heading := by
  unfold updateSpeed
  split <;> rfl

theorem updateDynamics_heading (e : SimulatedEntity) (deltaMs : Int) :
    (updateDynamics e deltaMs).heading = (updateHeading e ((deltaMs : ℚ) / 1000)).heading := by
  simp only [updateDynamics, updateSpeed_heading, updateAltitude_heading]

theorem turnDirection_cases (h t : ℚ) : turnDirection h t = 1 ∨ turnDirection h t = -1 := by
  unfold turnDirection
  split
  · exact Or.inl rfl
  · exact Or.inr rfl

/-- One wrap step is enough for a heading that left `[0, 360)` by less than a turn. -/
theorem wrapHeading_range (h : ℚ) (hlo : -360 ≤ h) (hhi : h < 720) :
    0 ≤ wrapHeading h ∧ wrapHeading h < 360 := by
  unfold wrapHeading
  by_cases h1 : h ≥ 360
  · have h2 : ¬ (h - 360 < 0) := by linarith
    simp only [h1, h2, if_true, if_false]
    constructor <;> linarith
  · by_cases h2 : h < 0
    · simp only [h1, h2, if_true, if_false]
      constructor <;> linarith
    · simp only [h1, h2, if_false]
      constructor <;> linarith

/-- The wrap changes a heading by a whole number of turns: 0, -1 or +1. -/
theorem wrapHeading_cases (h : ℚ) :
    wrapHeading h = h ∨ wrapHeading h = h - 360 ∨ wrapHeading h = h + 360 := by
  unfold wrapHeading
  by_cases h1 : h ≥ 360
  · have h2 : ¬ (h - 360 < 0) := by linarith
    rw [if_pos h1, if_neg h2]
    exact Or.inr (Or.inl rfl)
  · by_cases h2 : h < 0
    · rw [if_neg h1, if_pos h2]
      exact Or.inr (Or.inr rfl)
    · rw [if_neg h1, if_neg h2]
      exact Or.inl rfl

/-- C4 fails for a long tick: with heading 0, target heading 90 and a tick of 300000 ms
the heading after `updateDynamics` is 540, outside `[0, 360)`. -/
theorem heading_wrap_fails_for_long_tick :
    (0 : ℚ) ≤ (sampleEntity 0 90 30000 30000 400 400).heading ∧
      (sampleEntity 0 90 30000 30000 400 400).heading < 360 ∧
      (0 : ℚ) ≤ (sampleEntity 0 90 30000 30000 400 400).targetHeading ∧
      (sampleEntity 0 90 30000 30000 400 400).targetHeading < 360 ∧
      (0 : Int) ≤ 300000 ∧
      (updateDynamics (sampleEntity 0 90 30000 30000 400 400) 300000).heading = 540 ∧
      ¬ ((updateDynamics (sampleEntity 0 90 30000 30000 400 400) 300000).heading < 360) := by
  have hv : (updateDynamics (sampleEntity 0 90 30000 30000 400 400) 300000).heading = 540 := by
    rw [updateDynamics_heading]
    norm_num [updateHeading, sampleEntity, turnDirection, headingDiff, wrapHeading]
  rw [hv]
  norm_num [sampleEntity]

/-- A turn of at most 360 degrees keeps a heading of `[0, 360)` in `[0, 360)`. -/
theorem heading_wrap_range (e : SimulatedEntity) (deltaMs : Int)
    (hh0 : 0 ≤ e.heading) (hh1 : e.heading < 360)
    (hd0 : 0 ≤ deltaMs) (hd1 : deltaMs ≤ 120000) :
    0 ≤ (updateDynamics e deltaMs).heading ∧ (updateDynamics e deltaMs).heading < 360 := by
  rw [updateDynamics_heading]
  have hq0 : (0 : ℚ) ≤ (deltaMs : ℚ) / 1000 := by
    have : (0 : ℚ) ≤ (deltaMs : ℚ) := by exact_mod_cast hd0
    positivity
  have hq1 : (deltaMs : ℚ) / 1000 ≤ 120 := by
    have : (deltaMs : ℚ) ≤ 120000 := by exact_mod_cast hd1
    linarith
  unfold updateHeading
  split
  · apply wrapHeading_range
    · rcases turnDirection_cases e.heading e.targetHeading with hdir | hdir <;>
        rw [hdir] <;> linarith
    · rcases turnDirection_cases e.heading e.targetHeading with hdir | hdir <;>
        rw [hdir] <;> linarith
  · exact ⟨hh0, hh1⟩

/-- C4, amended: for heading and target heading in `[0, 360)` and a tick of at most
120000 ms (one full turn at 3 deg/s), the heading after `updateDynamics` lies in
`[0, 360)`. -/
theorem heading_wrap_invariant (e : SimulatedEntity) (deltaMs : Int)
    (hh0 : 0 ≤ e.heading) (hh1 : e.heading < 360)
    (_ht0 : 0 ≤ e.targetHeading) (_ht1 : e.targetHeading < 360)
    (hd0 : 0 ≤ deltaMs) (hd1 : deltaMs ≤ 120000) :
    0 ≤ (updateDynamics e deltaMs).heading ∧ (updateDynamics e deltaMs).heading < 360 :=
  heading_wrap_range e deltaMs hh0 hh1 hd0 hd1

theorem heading_wrap_invariant_witness :
    0 ≤ (updateDynamics (sampleEntity 350 20 30000 30000 400 400) 120000).heading ∧
      (updateDynamics (sampleEntity 350 20 30000 30000 400 400) 120000).heading < 360 :=
  heading_wrap_invariant (sampleEntity 350 20 30000 30000 400 400) 120000
    (by norm_num [sampleEntity]) (by norm_num [sampleEntity])
    (by norm_num [sampleEntity]) (by norm_num [sampleEntity])
    (by decide) (by decide)

/-- The wrap, by the position of the unwrapped heading. -/
theorem wrapHeading_spec (x : ℚ) :
    (360 ≤ x ∧ wrapHeading x = x - 360) ∨ (x < 0 ∧ wrapHeading x = x + 360) ∨
      (0 ≤ x ∧ x < 360 ∧ wrapHeading x = x) := by
  unfold wrapHeading
  by_cases h1 : x ≥ 360
  · have h2 : ¬ (x - 360 < 0) := by linarith
    rw [if_pos h1, if_neg h2]
    exact Or.inl ⟨h1, rfl⟩
  · by_cases h2 : x < 0
    · rw [if_neg h1, if_pos h2]
      exact Or.inr (Or.inl ⟨h2, rfl⟩)
    · rw [if_neg h1, if_neg h2]
      exact Or.inr (Or.inr ⟨by linarith, by linarith, rfl⟩)

/-- The normalised difference, by the position of the raw difference. -/
theorem headingDiff_spec (h t : ℚ) :
    (180 < t - h ∧ headingDiff h t = t - h - 360) ∨
      (t - h < -180 ∧ headingDiff h t = t - h + 360) ∨
      (-180 ≤ t - h ∧ t - h ≤ 180 ∧ headingDiff h t = t - h) := by
  by_cases h1 : t - h > 180
  · have h2 : ¬ (t - h - 360 < -180) := by linarith
    refine Or.inl ⟨h1, ?_⟩
    simp only [headingDiff]
    rw [if_pos h1, if_neg h2]
  · by_cases h2 : t - h < -180
    · refine Or.inr (Or.inl ⟨h2, ?_⟩)
      simp only [headingDiff]
      rw [if_neg h1, if_pos h2]
    · refine Or.inr (Or.inr ⟨by linarith, by linarith, ?_⟩)
      simp only [headingDiff]
      rw [if_neg h1, if_neg h2]

/-- The turn direction for headings of `[0, 360)`: towards the target the short way. -/
theorem turnDirection_spec (h t : ℚ) :
    (turnDirection h t = 1 ∧ 0 < headingDiff h t) ∨
      (turnDirection h t = -1 ∧ headingDiff h t ≤ 0) := by
  unfold turnDirection
  by_cases h1 : headingDiff h t > 0
  · rw [if_pos h1]
    exact Or.inl ⟨rfl, h1⟩
  · rw [if_neg h1]
    exact Or.inr ⟨rfl, by linarith⟩

theorem heading_step_monotone (h t dt : ℚ) (hh0 : 0 ≤ h) (hh1 : h < 360) (ht0 : 0 ≤ t)
    (ht1 : t < 360) (hdt0 : 0 ≤ dt) (hdt1 : 3 * dt ≤ 2) (hgt : |h - t| > 1)
    (hsep : 1 ≤ angularDistance h t) :
    angularDistance (wrapHeading (h + 3 * turnDirection h t * dt)) t ≤ angularDistance h t := by
  have hx := wrapHeading_spec (h + 3 * turnDirection h t * dt)
  have hd := turnDirection_spec h t
  have hdiff := headingDiff_spec h t
  generalize wrapHeading (h + 3 * turnDirection h t * dt) = h' at hx ⊢
  generalize turnDirection h t = dir at hx hd
  generalize headingDiff h t = d at hd hdiff
  unfold angularDistance at *
  rcases abs_cases (h' - t) with ⟨e1, c1⟩ | ⟨e1, c1⟩ <;>
  rcases abs_cases (h - t) with ⟨e2, c2⟩ | ⟨e2, c2⟩ <;>
  rw [e1, e2] <;> rw [e2] at hgt hsep <;>
  simp only [min_def] at hsep ⊢ <;> split_ifs at hsep ⊢ <;>
  rcases hd with ⟨rfl, hd⟩ | ⟨rfl, hd⟩ <;>
  rcases hdiff with ⟨hf, rfl⟩ | ⟨hf, rfl⟩ | ⟨hf1, hf2, rfl⟩ <;>
  rcases hx with ⟨hx1, rfl⟩ | ⟨hx1, rfl⟩ | ⟨hx1, hx2, rfl⟩ <;> linarith

theorem updateHeading_altitude (e : SimulatedEntity) (dt : ℚ) :
    (updateHeading e dt).altitude = e.altitude := by
  unfold updateHeading
  split <;> rfl

theorem updateHeading_targetAlt (e : SimulatedEntity) (dt : ℚ) :
    (updateHeading e dt).targetAlt = e.targetAlt := by
  unfold updateHeading
  split <;> rfl

theorem updateHeading_speed (e : SimulatedEntity) (dt : ℚ) :
    (updateHeading e dt).speed = e.speed := by
  unfold updateHeading
  split <;> rfl

theorem updateHeading_targetSpeed (e : SimulatedEntity) (dt : ℚ) :
    (updateHeading e dt).targetSpeed = e.targetSpeed := by
  unfold updateHeading
  split <;> rfl

theorem updateHeading_targetHeading (e : SimulatedEntity) (dt : ℚ) :
    (updateHeading e dt).targetHeading = e.targetHeading := by
  unfold updateHeading
  split <;> rfl

theorem updateAltitude_targetAlt (e : SimulatedEntity) (dt : ℚ) :
    (updateAltitude e dt).targetAlt = e.targetAlt := by
  unfold updateAltitude
  split <;> rfl

theorem updateAltitude_speed (e : SimulatedEntity) (dt : ℚ) :
    (updateAltitude e dt).speed = e.speed := by
  unfold updateAltitude
  split <;> rfl

theorem updateAltitude_targetSpeed (e : SimulatedEntity) (dt : ℚ) :
    (updateAltitude e dt).targetSpeed = e.targetSpeed := by
  unfold updateAltitude
  split <;> rfl

theorem updateAltitude_targetHeading (e : SimulatedEntity) (dt : ℚ) :
    (updateAltitude e dt).targetHeading = e.targetHeading := by
  unfold updateAltitude
  split <;> rfl

theorem updateSpeed_altitude (e : SimulatedEntity) (dt : ℚ) :
    (updateSpeed e dt).altitude = e.altitude := by
  unfold updateSpeed
  split <;> rfl

theorem updateSpeed_targetAlt (e : SimulatedEntity) (dt : ℚ) :
    (updateSpeed e dt).targetAlt = e.targetAlt := by
  unfold updateSpeed
  split <;> rfl

theorem updateSpeed_targetSpeed (e : SimulatedEntity) (dt : ℚ) :
    (updateSpeed e dt).targetSpeed = e.targetSpeed := by
  unfold updateSpeed
  split <;> rfl

theorem updateSpeed_targetHeading (e : SimulatedEntity) (dt : ℚ) :
    (updateSpeed e dt).targetHeading = e.targetHeading := by
  unfold updateSpeed
  split <;> rfl

theorem updateDynamics_targetHeading (e : SimulatedEntity) (deltaMs : Int) :
    (updateDynamics e deltaMs).targetHeading = e.targetHeading := by
  simp only [updateDynamics, updateSpeed_targetHeading, updateAltitude_targetHeading,
    updateHeading_targetHeading]

theorem updateDynamics_targetAlt (e : SimulatedEntity) (deltaMs : Int) :
    (updateDynamics e deltaMs).targetAlt = e.targetAlt := by
  simp only [updateDynamics, updateSpeed_targetAlt, updateAltitude_targetAlt,
    updateHeading_targetAlt]

theorem updateDynamics_targetSpeed (e : SimulatedEntity) (deltaMs : Int) :
    (updateDynamics e deltaMs).targetSpeed = e.targetSpeed := by
  simp only [updateDynamics, updateSpeed_targetSpeed, updateAltitude_targetSpeed,
    updateHeading_targetSpeed]

/-- The heading after a tick: moved by the turn and wrapped, or untouched. -/
theorem updateDynamics_heading_eq (e : SimulatedEntity) (deltaMs : Int) :
    (updateDynamics e deltaMs).heading =
      if |e.heading - e.targetHeading| > 1 then
        wrapHeading (e.heading +
          3 * turnDirection e.heading e.targetHeading * ((deltaMs : ℚ) / 1000))
      else e.heading := by
  rw [updateDynamics_heading]
  unfold updateHeading
  split <;> rfl

/-- The altitude after a tick: moved by the climb, or untouched. -/
theorem updateDynamics_altitude_eq (e : SimulatedEntity) (deltaMs : Int) :
    (updateDynamics e deltaMs).altitude =
      if |e.altitude - e.targetAlt| > 100 then
        e.altitude +
          ((if e.targetAlt - e.altitude > 0 then (2000 : ℚ) else -2000) / 60) *
            ((deltaMs : ℚ) / 1000)
      else e.altitude := by
  have h : ∀ (x : SimulatedEntity) (dt : ℚ), (updateAltitude x dt).altitude =
      if |x.altitude - x.targetAlt| > 100 then
        x.altitude + ((if x.targetAlt - x.altitude > 0 then (2000 : ℚ) else -2000) / 60) * dt
      else x.altitude := by
    intro x dt
    unfold updateAltitude
    split <;> rfl
  simp only [updateDynamics, updateSpeed_altitude, h, updateHeading_altitude,
    updateHeading_targetAlt]

/-- The speed after a tick: moved by the acceleration, or untouched. -/
theorem updateDynamics_speed_eq (e : SimulatedEntity) (deltaMs : Int) :
    (updateDynamics e deltaMs).speed =
      if |e.speed - e.targetSpeed| > 10 then
        e.speed +
          ((if e.targetSpeed - e.speed > 0 then (50 : ℚ) else -50) / 60) *
            ((deltaMs : ℚ) / 1000)
      else e.speed := by
  have h : ∀ (x : SimulatedEntity) (dt : ℚ), (updateSpeed x dt).speed =
      if |x.speed - x.targetSpeed| > 10 then
        x.speed + ((if x.targetSpeed - x.speed > 0 then (50 : ℚ) else -50) / 60) * dt
      else x.speed := by
    intro x dt
    unfold updateSpeed
    split <;> rfl
  simp only [updateDynamics, h, updateAltitude_speed, updateAltitude_targetSpeed,
    updateHeading_speed, updateHeading_targetSpeed]

/-- An altitude step of at most 200 ft does not increase the distance to the target. -/
theorem altitude_step_monotone (a t dt : ℚ) (h0 : 0 ≤ dt) (h1 : dt ≤ 6) :
    |(if |a - t| > 100 then
        a + ((if t - a > 0 then (2000 : ℚ) else -2000) / 60) * dt else a) - t| ≤ |a - t| := by
  by_cases hgt : |a - t| > 100
  · rw [if_pos hgt]
    rcases abs_cases (a - t) with ⟨e1, c1⟩ | ⟨e1, c1⟩
    · rw [e1] at hgt ⊢
      have hneg : ¬ (t - a > 0) := by linarith
      rw [if_neg hneg, abs_le]
      constructor <;> linarith
    · rw [e1] at hgt ⊢
      have hpos : t - a > 0 := by linarith
      rw [if_pos hpos, abs_le]
      constructor <;> linarith
  · rw [if_neg hgt]

/-- A speed step of at most 20 kt does not increase the distance to the target. -/
theorem speed_step_monotone (a t dt : ℚ) (h0 : 0 ≤ dt) (h1 : dt ≤ 24) :
    |(if |a - t| > 10 then
        a + ((if t - a > 0 then (50 : ℚ) else -50) / 60) * dt else a) - t| ≤ |a - t| := by
  by_cases hgt : |a - t| > 10
  · rw [if_pos hgt]
    rcases abs_cases (a - t) with ⟨e1, c1⟩ | ⟨e1, c1⟩
    · rw [e1] at hgt ⊢
      have hneg : ¬ (t - a > 0) := by linarith
      rw [if_neg hneg, abs_le]
      constructor <;> linarith
    · rw [e1] at hgt ⊢
      have hpos : t - a > 0 := by linarith
      rw [if_pos hpos, abs_le]
      constructor <;> linarith
  · rw [if_neg hgt]

/-- C5 fails at the default tick: with heading 0, target heading 6/5 and a tick of
1000 ms the heading after `updateDynamics` is 3, so the angular distance to the target
grows from 6/5 to 9/5. -/
theorem approach_not_monotone_default_tick :
    (0 : ℚ) ≤ (sampleEntity 0 (6 / 5) 30000 30000 400 400).heading ∧
      (sampleEntity 0 (6 / 5) 30000 30000 400 400).heading < 360 ∧
      (0 : ℚ) ≤ (sampleEntity 0 (6 / 5) 30000 30000 400 400).targetHeading ∧
      (sampleEntity 0 (6 / 5) 30000 30000 400 400).targetHeading < 360 ∧
      (0 : Int) < 1000 ∧
      (updateDynamics (sampleEntity 0 (6 / 5) 30000 30000 400 400) 1000).heading = 3 ∧
      (updateDynamics (sampleEntity 0 (6 / 5) 30000 30000 400 400) 1000).targetHeading = 6 / 5 ∧
      angularDistance (sampleEntity 0 (6 / 5) 30000 30000 400 400).heading
        (sampleEntity 0 (6 / 5) 30000 30000 400 400).targetHeading = 6 / 5 ∧
      angularDistance (updateDynamics (sampleEntity 0 (6 / 5) 30000 30000 400 400) 1000).heading
        (updateDynamics (sampleEntity 0 (6 / 5) 30000 30000 400 400) 1000).targetHeading = 9 / 5 ∧
      ¬ (angularDistance
          (updateDynamics (sampleEntity 0 (6 / 5) 30000 30000 400 400) 1000).heading
          (updateDynamics (sampleEntity 0 (6 / 5) 30000 30000 400 400) 1000).targetHeading ≤
        angularDistance (sampleEntity 0 (6 / 5) 30000 30000 400 400).heading
          (sampleEntity 0 (6 / 5) 30000 30000 400 400).targetHeading) := by
  have hv : (updateDynamics (sampleEntity 0 (6 / 5) 30000 30000 400 400) 1000).heading = 3 := by
    rw [updateDynamics_heading_eq]
    norm_num [sampleEntity, turnDirection, headingDiff, wrapHeading, abs_eq_max_neg]
  have ht : (updateDynamics (sampleEntity 0 (6 / 5) 30000 30000 400 400) 1000).targetHeading
      = 6 / 5 := by
    rw [updateDynamics_targetHeading]
    rfl
  rw [hv, ht]
  norm_num [sampleEntity, angularDistance, abs_eq_max_neg]

/-- C5, amended: for heading and target heading in `[0, 360)` and a tick `deltaMs > 0`,
one `updateDynamics` step does not increase the angular distance to the target heading
when `deltaMs ≤ 666` and the two headings are not closer than 1 degree across the 0/360
seam, does not increase `|altitude - targetAlt|` when `deltaMs ≤ 6000`, and does not
increase `|speed - targetSpeed|` when `deltaMs ≤ 24000`. -/
theorem approach_monotone (e : SimulatedEntity) (deltaMs : Int)
    (hh0 : 0 ≤ e.heading) (hh1 : e.heading < 360)
    (ht0 : 0 ≤ e.targetHeading) (ht1 : e.targetHeading < 360) (hd : 0 < deltaMs) :
    (deltaMs ≤ 666 →
        (|e.heading - e.targetHeading| > 1 → 1 ≤ angularDistance e.heading e.targetHeading) →
        angularDistance (updateDynamics e deltaMs).heading (updateDynamics e deltaMs).targetHeading
          ≤ angularDistance e.heading e.targetHeading) ∧
      (deltaMs ≤ 6000 →
        |(updateDynamics e deltaMs).altitude - (updateDynamics e deltaMs).targetAlt|
          ≤ |e.altitude - e.targetAlt|) ∧
      (deltaMs ≤ 24000 →
        |(updateDynamics e deltaMs).speed - (updateDynamics e deltaMs).targetSpeed|
          ≤ |e.speed - e.targetSpeed|) := by
  have hq0 : (0 : ℚ) ≤ (deltaMs : ℚ) / 1000 := by
    have : (0 : ℚ) < (deltaMs : ℚ) := by exact_mod_cast hd
    positivity
  refine ⟨?_, ?_, ?_⟩
  · intro hd1 hsep
    have hq1 : 3 * ((deltaMs : ℚ) / 1000) ≤ 2 := by
      have : (deltaMs : ℚ) ≤ 666 := by exact_mod_cast hd1
      linarith
    rw [updateDynamics_targetHeading, updateDynamics_heading_eq]
    by_cases hgt : |e.heading - e.targetHeading| > 1
    · rw [if_pos hgt]
      exact heading_step_monotone _ _ _ hh0 hh1 ht0 ht1 hq0 hq1 hgt (hsep hgt)
    · rw [if_neg hgt]
  · intro hd1
    have hq1 : (deltaMs : ℚ) / 1000 ≤ 6 := by
      have : (deltaMs : ℚ) ≤ 6000 := by exact_mod_cast hd1
      linarith
    rw [updateDynamics_targetAlt, updateDynamics_altitude_eq]
    exact altitude_step_monotone _ _ _ hq0 hq1
  · intro hd1
    have hq1 : (deltaMs : ℚ) / 1000 ≤ 24 := by
      have : (deltaMs : ℚ) ≤ 24000 := by exact_mod_cast hd1
      linarith
    rw [updateDynamics_targetSpeed, updateDynamics_speed_eq]
    exact speed_step_monotone _ _ _ hq0 hq1

theorem approach_monotone_witness :
    angularDistance (updateDynamics (sampleEntity 350 20 30000 31000 400 450) 500).heading
        (updateDynamics (sampleEntity 350 20 30000 31000 400 450) 500).targetHeading
        ≤ angularDistance (sampleEntity 350 20 30000 31000 400 450).heading
          (sampleEntity 350 20 30000 31000 400 450).targetHeading ∧
      |(updateDynamics (sampleEntity 350 20 30000 31000 400 450) 500).altitude -
          (updateDynamics (sampleEntity 350 20 30000 31000 400 450) 500).targetAlt|
        ≤ |(sampleEntity 350 20 30000 31000 400 450).altitude -
          (sampleEntity 350 20 30000 31000 400 450).targetAlt| ∧
      |(updateDynamics (sampleEntity 350 20 30000 31000 400 450) 500).speed -
          (updateDynamics (sampleEntity 350 20 30000 31000 400 450) 500).targetSpeed|
        ≤ |(sampleEntity 350 20 30000 31000 400 450).speed -
          (sampleEntity 350 20 30000 31000 400 450).targetSpeed| :=
  have h := approach_monotone (sampleEntity 350 20 30000 31000 400 450) 500
    (by norm_num [sampleEntity]) (by norm_num [sampleEntity])
    (by norm_num [sampleEntity]) (by norm_num [sampleEntity]) (by decide)
  ⟨h.1 (by decide) (fun _ => by norm_num [sampleEntity, angularDistance, abs_eq_max_neg]),
    h.2.1 (by decide), h.2.2 (by decide)⟩

theorem wrapHeading_turns (x : ℚ) : ∃ k : Int, wrapHeading x = x + 360 * (k : ℚ) := by
  rcases wrapHeading_cases x with h | h | h
  · exact ⟨0, by rw [h]; push_cast; ring⟩
  · exact ⟨-1, by rw [h]; push_cast; ring⟩
  · exact ⟨1, by rw [h]; push_cast; ring⟩

theorem headingDiff_turns (h t : ℚ) : ∃ k : Int, headingDiff h t = t - h + 360 * (k : ℚ) := by
  rcases headingDiff_spec h t with ⟨_, e⟩ | ⟨_, e⟩ | ⟨_, _, e⟩
  · exact ⟨-1, by rw [e]; push_cast; ring⟩
  · exact ⟨1, by rw [e]; push_cast; ring⟩
  · exact ⟨0, by rw [e]; push_cast; ring⟩

/-- The heading changes by nothing or by one increment, up to whole turns. -/
theorem heading_change (e : SimulatedEntity) (deltaMs : Int) :
    (updateDynamics e deltaMs).heading = e.heading ∨
      ∃ k : Int,
        (updateDynamics e deltaMs).heading - e.heading
            = headingIncrement deltaMs + 360 * (k : ℚ) ∨
          (updateDynamics e deltaMs).heading - e.heading
            = -headingIncrement deltaMs + 360 * (k : ℚ) := by
  rw [updateDynamics_heading_eq]
  by_cases hgt : |e.heading - e.targetHeading| > 1
  · rw [if_pos hgt]
    right
    obtain ⟨k, hk⟩ := wrapHeading_turns
      (e.heading + 3 * turnDirection e.heading e.targetHeading * ((deltaMs : ℚ) / 1000))
    refine ⟨k, ?_⟩
    rw [hk]
    unfold headingIncrement
    rcases turnDirection_cases e.heading e.targetHeading with hdir | hdir
    · left
      rw [hdir]
      ring
    · right
      rw [hdir]
      ring
  · rw [if_neg hgt]
    exact Or.inl rfl

/-- The altitude changes by nothing or by one increment. -/
theorem altitude_change (e : SimulatedEntity) (deltaMs : Int) (hd : 0 ≤ deltaMs) :
    (updateDynamics e deltaMs).altitude = e.altitude ∨
      |(updateDynamics e deltaMs).altitude - e.altitude| = altitudeIncrement deltaMs := by
  have hq0 : (0 : ℚ) ≤ (deltaMs : ℚ) / 1000 := by
    have : (0 : ℚ) ≤ (deltaMs : ℚ) := by exact_mod_cast hd
    positivity
  rw [updateDynamics_altitude_eq]
  unfold altitudeIncrement
  by_cases hgt : |e.altitude - e.targetAlt| > 100
  · rw [if_pos hgt]
    right
    by_cases hs : e.targetAlt - e.altitude > 0
    · rw [if_pos hs, abs_of_nonneg] <;> linarith
    · rw [if_neg hs, abs_of_nonpos] <;> linarith
  · rw [if_neg hgt]
    exact Or.inl rfl

/-- The speed changes by nothing or by one increment. -/
theorem speed_change (e : SimulatedEntity) (deltaMs : Int) (hd : 0 ≤ deltaMs) :
    (updateDynamics e deltaMs).speed = e.speed ∨
      |(updateDynamics e deltaMs).speed - e.speed| = speedIncrement deltaMs := by
  have hq0 : (0 : ℚ) ≤ (deltaMs : ℚ) / 1000 := by
    have : (0 : ℚ) ≤ (deltaMs : ℚ) := by exact_mod_cast hd
    positivity
  rw [updateDynamics_speed_eq]
  unfold speedIncrement
  by_cases hgt : |e.speed - e.targetSpeed| > 10
  · rw [if_pos hgt]
    right
    by_cases hs : e.targetSpeed - e.speed > 0
    · rw [if_pos hs, abs_of_nonneg] <;> linarith
    · rw [if_neg hs, abs_of_nonpos] <;> linarith
  · rw [if_neg hgt]
    exact Or.inl rfl

/-- An altitude that passes its target ends less than one increment past it. -/
theorem altitude_overshoot (e : SimulatedEntity) (deltaMs : Int)
    (hpass : (e.altitude < e.targetAlt ∧ e.targetAlt < (updateDynamics e deltaMs).altitude) ∨
      (e.targetAlt < e.altitude ∧ (updateDynamics e deltaMs).altitude < e.targetAlt)) :
    |(updateDynamics e deltaMs).altitude - e.targetAlt| < altitudeIncrement deltaMs := by
  rw [updateDynamics_altitude_eq] at hpass ⊢
  unfold altitudeIncrement
  by_cases hgt : |e.altitude - e.targetAlt| > 100
  · rw [if_pos hgt] at hpass ⊢
    rcases hpass with ⟨h1, h2⟩ | ⟨h1, h2⟩
    · have hs : e.targetAlt - e.altitude > 0 := by linarith
      rw [if_pos hs] at h2 ⊢
      rw [abs_of_pos] <;> linarith
    · have hs : ¬ (e.targetAlt - e.altitude > 0) := by linarith
      rw [if_neg hs] at h2 ⊢
      rw [abs_of_neg] <;> linarith
  · rw [if_neg hgt] at hpass
    rcases hpass with ⟨h1, h2⟩ | ⟨h1, h2⟩ <;> linarith

/-- A speed that passes its target ends less than one increment past it. -/
theorem speed_overshoot (e : SimulatedEntity) (deltaMs : Int)
    (hpass : (e.speed < e.targetSpeed ∧ e.targetSpeed < (updateDynamics e deltaMs).speed) ∨
      (e.targetSpeed < e.speed ∧ (updateDynamics e deltaMs).speed < e.targetSpeed)) :
    |(updateDynamics e deltaMs).speed - e.targetSpeed| < speedIncrement deltaMs := by
  rw [updateDynamics_speed_eq] at hpass ⊢
  unfold speedIncrement
  by_cases hgt : |e.speed - e.targetSpeed| > 10
  · rw [if_pos hgt] at hpass ⊢
    rcases hpass with ⟨h1, h2⟩ | ⟨h1, h2⟩
    · have hs : e.targetSpeed - e.speed > 0 := by linarith
      rw [if_pos hs] at h2 ⊢
      rw [abs_of_pos] <;> linarith
    · have hs : ¬ (e.targetSpeed - e.speed > 0) := by linarith
      rw [if_neg hs] at h2 ⊢
      rw [abs_of_neg] <;> linarith
  · rw [if_neg hgt] at hpass
    rcases hpass with ⟨h1, h2⟩ | ⟨h1, h2⟩ <;> linarith

/-- After a turn the target lies at the residual angle from the new heading, up to whole
turns. -/
theorem heading_residual_congruent (e : SimulatedEntity) (deltaMs : Int)
    (hgt : |e.heading - e.targetHeading| > 1) :
    ∃ k : Int, e.targetHeading - (updateDynamics e deltaMs).heading
      = headingResidual e deltaMs + 360 * (k : ℚ) := by
  rw [updateDynamics_heading_eq, if_pos hgt]
  obtain ⟨k1, hk1⟩ := wrapHeading_turns
    (e.heading + 3 * turnDirection e.heading e.targetHeading * ((deltaMs : ℚ) / 1000))
  obtain ⟨k0, hk0⟩ := headingDiff_turns e.heading e.targetHeading
  refine ⟨-k0 - k1, ?_⟩
  rw [hk1]
  unfold headingResidual headingIncrement
  rw [hk0]
  push_cast
  ring

/-- A heading that turns past its target ends less than one increment past it. -/
theorem heading_overshoot (e : SimulatedEntity) (deltaMs : Int)
    (hpass : (0 < headingDiff e.heading e.targetHeading ∧ headingResidual e deltaMs < 0) ∨
      (headingDiff e.heading e.targetHeading < 0 ∧ 0 < headingResidual e deltaMs)) :
    |headingResidual e deltaMs| < headingIncrement deltaMs := by
  unfold headingResidual at hpass ⊢
  rcases turnDirection_spec e.heading e.targetHeading with ⟨hdir, hdiff⟩ | ⟨hdir, hdiff⟩
  · rw [hdir] at hpass ⊢
    rcases hpass with ⟨h1, h2⟩ | ⟨h1, h2⟩
    · rw [abs_of_neg h2]
      linarith
    · linarith
  · rw [hdir] at hpass ⊢
    rcases hpass with ⟨h1, h2⟩ | ⟨h1, h2⟩
    · linarith
    · rw [abs_of_pos h2]
      linarith

/-- The angular distance is at most the size of any angle that joins the two headings
up to whole turns. -/
theorem angularDistance_le_of_congruent (h t r : ℚ) (k : Int)
    (hk : t - h = r + 360 * (k : ℚ)) : angularDistance h t ≤ |r| := by
  unfold angularDistance
  have a1 := le_abs_self r
  have a2 := neg_le_abs r
  have b1 := le_abs_self (h - t)
  have b2 := neg_le_abs (h - t)
  rcases lt_trichotomy k 0 with hneg | hzero | hpos
  · have hq : (k : ℚ) ≤ -1 := by exact_mod_cast Int.le_sub_one_of_lt hneg
    apply min_le_of_right_le
    linarith
  · subst hzero
    apply min_le_of_left_le
    have : h - t = -r := by
      push_cast at hk
      linarith
    rw [this, abs_neg]
  · have hq : (1 : ℚ) ≤ (k : ℚ) := by exact_mod_cast Int.add_one_le_of_lt hpos
    apply min_le_of_right_le
    linarith

/-- In angular terms: a heading that turns past its target ends at an angular distance
below one increment. -/
theorem heading_overshoot_angular (e : SimulatedEntity) (deltaMs : Int)
    (hgt : |e.heading - e.targetHeading| > 1)
    (hpass : (0 < headingDiff e.heading e.targetHeading ∧ headingResidual e deltaMs < 0) ∨
      (headingDiff e.heading e.targetHeading < 0 ∧ 0 < headingResidual e deltaMs)) :
    angularDistance (updateDynamics e deltaMs).heading e.targetHeading
      < headingIncrement deltaMs := by
  obtain ⟨k, hk⟩ := heading_residual_congruent e deltaMs hgt
  exact lt_of_le_of_lt
    (angularDistance_le_of_congruent _ _ _ k hk)
    (heading_overshoot e deltaMs hpass)

/-- C6: for every entity and every tick `deltaMs ≥ 0`, one `updateDynamics` step changes
the heading by nothing or by `3 * deltaMs / 1000` degrees up to whole turns, the altitude
by nothing or by `(2000 / 60) * deltaMs / 1000` ft and the speed by nothing or by
`(50 / 60) * deltaMs / 1000` kt; and a channel that passes its target during the step
ends strictly less than its one-tick increment past it (for the heading: after a turn
the target lies at the residual angle from the new heading, and a residual of the
opposite sign than the difference before the turn is smaller than the increment, and so
is then the angular distance between the new heading and the target). -/
theorem bounded_overshoot (e : SimulatedEntity) (deltaMs : Int) (hd : 0 ≤ deltaMs) :
    ((updateDynamics e deltaMs).heading = e.heading ∨
        ∃ k : Int,
          (updateDynamics e deltaMs).heading - e.heading
              = headingIncrement deltaMs + 360 * (k : ℚ) ∨
            (updateDynamics e deltaMs).heading - e.heading
              = -headingIncrement deltaMs + 360 * (k : ℚ)) ∧
      ((updateDynamics e deltaMs).altitude = e.altitude ∨
        |(updateDynamics e deltaMs).altitude - e.altitude| = altitudeIncrement deltaMs) ∧
      ((updateDynamics e deltaMs).speed = e.speed ∨
        |(updateDynamics e deltaMs).speed - e.speed| = speedIncrement deltaMs) ∧
      (|e.heading - e.targetHeading| > 1 →
        ∃ k : Int, e.targetHeading - (updateDynamics e deltaMs).heading
          = headingResidual e deltaMs + 360 * (k : ℚ)) ∧
      ((0 < headingDiff e.heading e.targetHeading ∧ headingResidual e deltaMs < 0) ∨
          (headingDiff e.heading e.targetHeading < 0 ∧ 0 < headingResidual e deltaMs) →
        |headingResidual e deltaMs| < headingIncrement deltaMs) ∧
      ((e.altitude < e.targetAlt ∧ e.targetAlt < (updateDynamics e deltaMs).altitude) ∨
          (e.targetAlt < e.altitude ∧ (updateDynamics e deltaMs).altitude < e.targetAlt) →
        |(updateDynamics e deltaMs).altitude - e.targetAlt| < altitudeIncrement deltaMs) ∧
      ((e.speed < e.targetSpeed ∧ e.targetSpeed < (updateDynamics e deltaMs).speed) ∨
          (e.targetSpeed < e.speed ∧ (updateDynamics e deltaMs).speed < e.targetSpeed) →
        |(updateDynamics e deltaMs).speed - e.targetSpeed| < speedIncrement deltaMs) ∧
      (|e.heading - e.targetHeading| > 1 →
        (0 < headingDiff e.heading e.targetHeading ∧ headingResidual e deltaMs < 0) ∨
          (headingDiff e.heading e.targetHeading < 0 ∧ 0 < headingResidual e deltaMs) →
        angularDistance (updateDynamics e deltaMs).heading e.targetHeading
          < headingIncrement deltaMs) :=
  ⟨heading_change e deltaMs, altitude_change e deltaMs hd, speed_change e deltaMs hd,
    heading_residual_congruent e deltaMs, heading_overshoot e deltaMs,
    altitude_overshoot e deltaMs, speed_overshoot e deltaMs,
    heading_overshoot_angular e deltaMs⟩

theorem bounded_overshoot_witness :
    |headingResidual (sampleEntity 0 2 30000 30110 400 411) 24000| < headingIncrement 24000 ∧
      |(updateDynamics (sampleEntity 0 2 30000 30110 400 411) 24000).altitude -
          (sampleEntity 0 2 30000 30110 400 411).targetAlt| < altitudeIncrement 24000 ∧
      |(updateDynamics (sampleEntity 0 2 30000 30110 400 411) 24000).speed -
          (sampleEntity 0 2 30000 30110 400 411).targetSpeed| < speedIncrement 24000 ∧
      angularDistance (updateDynamics (sampleEntity 0 2 30000 30110 400 411) 24000).heading
          (sampleEntity 0 2 30000 30110 400 411).targetHeading < headingIncrement 24000 :=
  have h := bounded_overshoot (sampleEntity 0 2 30000 30110 400 411) 24000 (by decide)
  ⟨h.2.2.2.2.1 (Or.inl ⟨by norm_num [sampleEntity, headingDiff],
      by norm_num [headingResidual, headingDiff, turnDirection, headingIncrement, sampleEntity]⟩),
    h.2.2.2.2.2.1 (Or.inl ⟨by norm_num [sampleEntity], by
      rw [updateDynamics_altitude_eq]
      norm_num [sampleEntity, abs_eq_max_neg]⟩),
    h.2.2.2.2.2.2.1 (Or.inl ⟨by norm_num [sampleEntity], by
      rw [updateDynamics_speed_eq]
      norm_num [sampleEntity, abs_eq_max_neg]⟩),
    h.2.2.2.2.2.2.2 (by norm_num [sampleEntity])
      (Or.inl ⟨by norm_num [sampleEntity, headingDiff],
        by norm_num [headingResidual, headingDiff, turnDirection, headingIncrement,
          sampleEntity]⟩)⟩

/-! ### Server manager -/

theorem peerWrites_append (xs ys : List PeerCall) :
    peerWrites (xs ++ ys) = peerWrites xs ++ peerWrites ys := by
  induction xs with
  | nil => rfl
  | cons x rest ih =>
    cases x <;> simp [peerWrites, ih]

/-- The echo loop writes the line once to every client, in the order of the list. -/
theorem peerWrites_echoToAll (clients : List Nat) (data : Bytes) :
    peerWrites (echoToAll clients data) = clients.map (fun c => (c, data)) := by
  induction clients with
  | nil => rfl
  | cons c rest ih =>
    have h : echoToAll (c :: rest) data =
        [PeerCall.write c data, PeerCall.flush c] ++ echoToAll rest data := by
      simp [echoToAll]
    rw [h, peerWrites_append, ih]
    rfl

/-- C7: a non-empty line read from a registered peer `A` is written, unmodified, once
to every peer of the list in turn, `A` included, and the manager (with its peer list) is
left as it was; so there are as many writes as peers, 3 for 3 peers. -/
theorem onReadyRead_broadcast (m : NetworkedEWAM) (A : Nat) (line : Bytes)
    (hA : A ∈ m.clients) (hline : line ≠ []) :
    (onReadyRead m (some A) [line]).1 = m ∧
      peerWrites (onReadyRead m (some A) [line]).2 = m.clients.map (fun c => (c, line)) ∧
      (A, line) ∈ peerWrites (onReadyRead m (some A) [line]).2 ∧
      (peerWrites (onReadyRead m (some A) [line]).2).length = m.clients.length := by
  have hcalls : (onReadyRead m (some A) [line]).2 = echoToAll m.clients line := by
    simp [onReadyRead, hline]
  rw [hcalls, peerWrites_echoToAll]
  refine ⟨rfl, rfl, ?_, by simp⟩
  exact List.mem_map.mpr ⟨A, hA, rfl⟩

theorem onReadyRead_broadcast_witness :
    (onReadyRead { NetworkedEWAM.construct with clients := [7, 8, 9] } (some 7)
        [[123, 125, 10]]).1 = { NetworkedEWAM.construct with clients := [7, 8, 9] } ∧
      peerWrites (onReadyRead { NetworkedEWAM.construct with clients := [7, 8, 9] } (some 7)
        [[123, 125, 10]]).2 = [(7, [123, 125, 10]), (8, [123, 125, 10]), (9, [123, 125, 10])] ∧
      (7, [123, 125, 10]) ∈
        peerWrites (onReadyRead { NetworkedEWAM.construct with clients := [7, 8, 9] } (some 7)
          [[123, 125, 10]]).2 ∧
      (peerWrites (onReadyRead { NetworkedEWAM.construct with clients := [7, 8, 9] } (some 7)
        [[123, 125, 10]]).2).length = 3 :=
  onReadyRead_broadcast { NetworkedEWAM.construct with clients := [7, 8, 9] } 7 [123, 125, 10]
    (by decide) (by decide)

/-- For any lines read in one call: every non-empty line is written once to every
peer, line by line, and the manager is left as it was. -/
theorem onReadyRead_broadcast_lines (m : NetworkedEWAM) (A : Nat) (lines : List Bytes) :
    (onReadyRead m (some A) lines).1 = m ∧
      peerWrites (onReadyRead m (some A) lines).2
        = (lines.filter (fun data => decide (data ≠ []))).flatMap
            (fun data => m.clients.map (fun c => (c, data))) := by
  refine ⟨rfl, ?_⟩
  show peerWrites
      (lines.flatMap (fun data => if data ≠ [] then echoToAll m.clients data else [])) = _
  induction lines with
  | nil => rfl
  | cons data rest ih =>
    rw [List.flatMap_cons, peerWrites_append, ih]
    by_cases hd : data ≠ []
    · rw [if_pos hd, peerWrites_echoToAll, List.filter_cons_of_pos (by simpa using hd),
        List.flatMap_cons]
    · rw [if_neg hd, List.filter_cons_of_neg (by simpa using hd)]
      rfl

/-- C8 fails: after a successful `startServer 12345` the server is listening, and a
second `startServer 12345` returns false. -/
theorem startServer_twice_fails :
    (startServer NetworkedEWAM.construct 12345 true).2 = true ∧
      (startServer NetworkedEWAM.construct 12345 true).1.server =
        some { listening := true, port := 12345 } ∧
      (startServer (startServer NetworkedEWAM.construct 12345 true).1 12345 true).2 = false ∧
      ¬ ((startServer (startServer NetworkedEWAM.construct 12345 true).1 12345 true).2 = true) := by
  refine ⟨by rfl, by rfl, by rfl, by decide⟩

/-- C8, amended: when the server is already listening, `startServer` leaves the manager,
with its listener and its peer list, as it was and returns false, whatever the port and
whether or not it could be bound. -/
theorem startServer_while_listening (m : NetworkedEWAM) (s : QTcpServer) (port : Nat)
    (bindOk : Bool) (hs : m.server = some s) (hl : s.listening = true) :
    startServer m port bindOk = (m, false) := by
  cases m
  simp only at hs
  subst hs
  simp [startServer, QTcpServer.listen, hl]

theorem startServer_while_listening_witness :
    startServer (startServer NetworkedEWAM.construct 12345 true).1 12345 true =
      ((startServer NetworkedEWAM.construct 12345 true).1, false) :=
  startServer_while_listening (startServer NetworkedEWAM.construct 12345 true).1
    { listening := true, port := 12345 } 12345 true (by rfl) (by rfl)

/-! ### Scenario loader and re-targeting -/

/-- C9: from empty entity and emitter maps, whatever the random draws, loading the
scenario "custom" gives an entity map with the single entry "TEST01" (id "TEST01", type
"F35", altitude and target altitude 30000) and an emitter map with the single entry
"TEST_RADAR" (id "TEST_RADAR"). -/
theorem initializeSimulation_custom (ext : External) (m : NetworkedEWAM) (draw : Nat → Nat)
    (hent : m.entities = []) (hemi : m.emitters = []) :
    ∃ (e : SimulatedEntity) (em : Emitter),
      (initializeSimulation ext m "custom" draw).entities = [("TEST01", e)] ∧
        e.id = "TEST01" ∧ e.type = "F35" ∧ e.altitude = 30000 ∧ e.targetAlt = 30000 ∧
        (initializeSimulation ext m "custom" draw).emitters = [("TEST_RADAR", em)] ∧
        em.id = "TEST_RADAR" := by
  have h1 : ¬ ("custom" = "melbourne") := by decide
  have h2 : ¬ ("custom" = "convoy") := by decide
  have h3 : ¬ ("custom" = "combat") := by decide
  unfold initializeSimulation
  rw [if_neg h1, if_neg h2, if_neg h3, if_pos rfl]
  simp only [createSimulatedEntity, createSimulatedEmitter, hent, hemi, qmapSet]
  exact ⟨_, _, rfl, rfl, rfl, rfl, rfl, rfl, rfl⟩

theorem initializeSimulation_custom_witness :
    ∃ (e : SimulatedEntity) (em : Emitter),
      (initializeSimulation sampleExternal NetworkedEWAM.construct "custom"
          (fun k => 1000 + k)).entities = [("TEST01", e)] ∧
        e.id = "TEST01" ∧ e.type = "F35" ∧ e.altitude = 30000 ∧ e.targetAlt = 30000 ∧
        (initializeSimulation sampleExternal NetworkedEWAM.construct "custom"
          (fun k => 1000 + k)).emitters = [("TEST_RADAR", em)] ∧
        em.id = "TEST_RADAR" :=
  initializeSimulation_custom sampleExternal NetworkedEWAM.construct (fun k => 1000 + k) rfl rfl

theorem qBound_eq_clamp (lo x hi : ℚ) (h : lo ≤ hi) : qBound lo x hi = clamp x lo hi := by
  unfold qBound clamp
  by_cases h1 : x < lo
  · rw [if_pos h1, max_eq_left]
    exact le_trans (min_le_right _ _) (le_of_lt h1)
  · rw [if_neg h1]
    by_cases h2 : hi < x
    · rw [if_pos h2, min_eq_left (le_of_lt h2), max_eq_right h]
    · rw [if_neg h2, min_eq_right (not_lt.mp h2), max_eq_right (not_lt.mp h1)]

theorem qBound_range (lo x hi : ℚ) (h : lo ≤ hi) : lo ≤ qBound lo x hi ∧ qBound lo x hi ≤ hi := by
  unfold qBound
  exact ⟨le_max_left _ _, max_le h (min_le_left _ _)⟩

/-- The offset `r % n - n / 2` drawn by `setNewTargets` lies in `[-n/2, n/2)`. -/
theorem draw_offset_range (r n half : Nat) (hn : n = 2 * half) (hpos : 0 < n) :
    -(half : Int) ≤ ((r % n : Nat) : Int) - half ∧ ((r % n : Nat) : Int) - half < half := by
  have h := Nat.mod_lt r hpos
  omega

/-! ### Re-targeting in double arithmetic -/

theorem roundNearestEven_bounds (q : ℚ) :
    ⌊q⌋ ≤ roundNearestEven q ∧ roundNearestEven q ≤ ⌊q⌋ + 1 := by
  unfold roundNearestEven
  simp only
  split_ifs <;> constructor <;> omega

theorem roundNearestEven_mono {q1 q2 : ℚ} (h : q1 ≤ q2) :
    roundNearestEven q1 ≤ roundNearestEven q2 := by
  have hf : ⌊q1⌋ ≤ ⌊q2⌋ := Int.floor_mono h
  rcases lt_or_eq_of_le hf with hlt | heq
  · have h1 := (roundNearestEven_bounds q1).2
    have h2 := (roundNearestEven_bounds q2).1
    omega
  · unfold roundNearestEven
    simp only
    rw [heq]
    have hq : q1 - (⌊q2⌋ : ℚ) ≤ q2 - (⌊q2⌋ : ℚ) := by linarith
    split_ifs <;> first | omega | (exfalso; linarith)

theorem roundNearestEven_intCast (n : Int) : roundNearestEven (n : ℚ) = n := by
  unfold roundNearestEven
  simp

theorem two_zpow_pos (e : Int) : (0 : ℚ) < (2 : ℚ) ^ e := zpow_pos (by norm_num) e

theorem roundToGrid_mono (e : Int) {x y : ℚ} (h : x ≤ y) :
    roundToGrid e x ≤ roundToGrid e y := by
  unfold roundToGrid
  have hp := two_zpow_pos e
  have hq : x / (2 : ℚ) ^ e ≤ y / (2 : ℚ) ^ e := div_le_div_of_nonneg_right h (le_of_lt hp)
  have hr : ((roundNearestEven (x / (2 : ℚ) ^ e) : Int) : ℚ)
      ≤ ((roundNearestEven (y / (2 : ℚ) ^ e) : Int) : ℚ) := by
    exact_mod_cast roundNearestEven_mono hq
  exact mul_le_mul_of_nonneg_right hr (le_of_lt hp)

theorem roundToGrid_grid (e : Int) (n : Int) :
    roundToGrid e ((n : ℚ) * (2 : ℚ) ^ e) = (n : ℚ) * (2 : ℚ) ^ e := by
  unfold roundToGrid
  have hp := two_zpow_pos e
  rw [mul_div_assoc, div_self (ne_of_gt hp), mul_one, roundNearestEven_intCast]

/-- A power of two is a point of the grid of its own binade. -/
theorem two_zpow_eq_grid (k : Int) :
    (2 : ℚ) ^ k = ((2 ^ 52 : Int) : ℚ) * (2 : ℚ) ^ (k - 52) := by
  have h : (2 : ℚ) ^ k = (2 : ℚ) ^ (52 : Int) * (2 : ℚ) ^ (k - 52) := by
    rw [← zpow_add₀ (by norm_num : (2 : ℚ) ≠ 0)]
    congr 1
    ring
  rw [h]
  norm_num

theorem two_zpow_succ_eq_grid (k : Int) :
    (2 : ℚ) ^ (k + 1) = ((2 ^ 53 : Int) : ℚ) * (2 : ℚ) ^ (k - 52) := by
  have h : (2 : ℚ) ^ (k + 1) = (2 : ℚ) ^ (53 : Int) * (2 : ℚ) ^ (k - 52) := by
    rw [← zpow_add₀ (by norm_num : (2 : ℚ) ≠ 0)]
    congr 1
    ring
  rw [h]
  norm_num

/-- A positive number and its double lie in the same closed binade. -/
theorem roundDouble_pos_bounds {x : ℚ} (hx : 0 < x) :
    (2 : ℚ) ^ Int.log 2 x ≤ roundDouble x ∧ roundDouble x ≤ (2 : ℚ) ^ (Int.log 2 x + 1) := by
  have habs : |x| = x := abs_of_pos hx
  have hlo : (2 : ℚ) ^ Int.log 2 x ≤ x := by
    exact_mod_cast Int.zpow_log_le_self (b := 2) (by norm_num) hx
  have hhi : x < (2 : ℚ) ^ (Int.log 2 x + 1) := by
    exact_mod_cast Int.lt_zpow_succ_log_self (b := 2) (by norm_num) x
  unfold roundDouble
  rw [if_neg (ne_of_gt hx), habs]
  constructor
  · calc (2 : ℚ) ^ Int.log 2 x
        = roundToGrid (Int.log 2 x - 52) ((2 : ℚ) ^ Int.log 2 x) := by
          rw [two_zpow_eq_grid, roundToGrid_grid]
      _ ≤ roundToGrid (Int.log 2 x - 52) x := roundToGrid_mono _ hlo
  · calc roundToGrid (Int.log 2 x - 52) x
        ≤ roundToGrid (Int.log 2 x - 52) ((2 : ℚ) ^ (Int.log 2 x + 1)) :=
          roundToGrid_mono _ (le_of_lt hhi)
      _ = (2 : ℚ) ^ (Int.log 2 x + 1) := by
          rw [two_zpow_succ_eq_grid, roundToGrid_grid]

theorem neg_two_zpow_eq_grid (k : Int) :
    -(2 : ℚ) ^ k = ((-(2 ^ 52) : Int) : ℚ) * (2 : ℚ) ^ (k - 52) := by
  rw [two_zpow_eq_grid k]
  push_cast
  ring

theorem neg_two_zpow_succ_eq_grid (k : Int) :
    -(2 : ℚ) ^ (k + 1) = ((-(2 ^ 53) : Int) : ℚ) * (2 : ℚ) ^ (k - 52) := by
  rw [two_zpow_succ_eq_grid k]
  push_cast
  ring

/-- A negative number and its double lie in the same closed binade. -/
theorem roundDouble_neg_bounds {x : ℚ} (hx : x < 0) :
    -(2 : ℚ) ^ (Int.log 2 (-x) + 1) ≤ roundDouble x ∧
      roundDouble x ≤ -(2 : ℚ) ^ Int.log 2 (-x) := by
  have habs : |x| = -x := abs_of_neg hx
  have hx' : 0 < -x := by linarith
  have hlo : (2 : ℚ) ^ Int.log 2 (-x) ≤ -x := by
    exact_mod_cast Int.zpow_log_le_self (b := 2) (by norm_num) hx'
  have hhi : -x < (2 : ℚ) ^ (Int.log 2 (-x) + 1) := by
    exact_mod_cast Int.lt_zpow_succ_log_self (b := 2) (by norm_num) (-x)
  unfold roundDouble
  rw [if_neg (ne_of_lt hx), habs]
  constructor
  · calc -(2 : ℚ) ^ (Int.log 2 (-x) + 1)
        = roundToGrid (Int.log 2 (-x) - 52) (-(2 : ℚ) ^ (Int.log 2 (-x) + 1)) := by
          rw [neg_two_zpow_succ_eq_grid, roundToGrid_grid]
      _ ≤ roundToGrid (Int.log 2 (-x) - 52) x := roundToGrid_mono _ (by linarith)
  · calc roundToGrid (Int.log 2 (-x) - 52) x
        ≤ roundToGrid (Int.log 2 (-x) - 52) (-(2 : ℚ) ^ Int.log 2 (-x)) :=
          roundToGrid_mono _ (by linarith)
      _ = -(2 : ℚ) ^ Int.log 2 (-x) := by
          rw [neg_two_zpow_eq_grid, roundToGrid_grid]

theorem roundDouble_zero : roundDouble 0 = 0 := by
  simp [roundDouble]

/-- Rounding to the nearest double is monotone. -/
theorem roundDouble_mono {x y : ℚ} (h : x ≤ y) : roundDouble x ≤ roundDouble y := by
  rcases lt_trichotomy x 0 with hx | hx | hx
  · rcases lt_trichotomy y 0 with hy | hy | hy
    · -- both negative
      have hxy : -y ≤ -x := by linarith
      have hlog : Int.log 2 (-y) ≤ Int.log 2 (-x) :=
        Int.log_mono_right (by linarith) hxy
      rcases lt_or_eq_of_le hlog with hlt | heq
      · have h1 := (roundDouble_neg_bounds hx).2
        have h2 := (roundDouble_neg_bounds hy).1
        have h3 : (2 : ℚ) ^ (Int.log 2 (-y) + 1) ≤ (2 : ℚ) ^ Int.log 2 (-x) :=
          zpow_le_zpow_right₀ (by norm_num) (by omega)
        linarith
      · unfold roundDouble
        rw [if_neg (ne_of_lt hx), if_neg (ne_of_lt hy), abs_of_neg hx, abs_of_neg hy, heq]
        exact roundToGrid_mono _ h
    · rw [hy, roundDouble_zero]
      have h1 := (roundDouble_neg_bounds hx).2
      have h2 := two_zpow_pos (Int.log 2 (-x))
      linarith
    · have h1 := (roundDouble_neg_bounds hx).2
      have h2 := two_zpow_pos (Int.log 2 (-x))
      have h3 := (roundDouble_pos_bounds hy).1
      have h4 := two_zpow_pos (Int.log 2 y)
      linarith
  · rw [hx, roundDouble_zero]
    rcases lt_or_eq_of_le (hx ▸ h) with hy | hy
    · have h3 := (roundDouble_pos_bounds hy).1
      have h4 := two_zpow_pos (Int.log 2 y)
      linarith
    · rw [← hy, roundDouble_zero]
  · have hy : 0 < y := lt_of_lt_of_le hx h
    have hlog : Int.log 2 x ≤ Int.log 2 y := Int.log_mono_right hx h
    rcases lt_or_eq_of_le hlog with hlt | heq
    · have h1 := (roundDouble_pos_bounds hx).2
      have h2 := (roundDouble_pos_bounds hy).1
      have h3 : (2 : ℚ) ^ (Int.log 2 x + 1) ≤ (2 : ℚ) ^ Int.log 2 y :=
        zpow_le_zpow_right₀ (by norm_num) (by omega)
      linarith
    · unfold roundDouble
      rw [if_neg (ne_of_gt hx), if_neg (ne_of_gt hy), abs_of_pos hx, abs_of_pos hy, heq]
      exact roundToGrid_mono _ h

/-- The binade of a non-zero number, from its bounds. -/
theorem roundDouble_of_binade (x : ℚ) (k : Int) (hlo : (2 : ℚ) ^ k ≤ |x|)
    (hhi : |x| < (2 : ℚ) ^ (k + 1)) : roundDouble x = roundToGrid (k - 52) x := by
  have hpos : 0 < |x| := lt_of_lt_of_le (two_zpow_pos k) hlo
  have hx : x ≠ 0 := abs_pos.mp hpos
  have h1 : k ≤ Int.log 2 |x| :=
    (Int.zpow_le_iff_le_log (b := 2) (by norm_num) hpos).1 (by exact_mod_cast hlo)
  have h2 : Int.log 2 |x| < k + 1 :=
    (Int.lt_zpow_iff_log_lt (b := 2) (by norm_num) hpos).1 (by exact_mod_cast hhi)
  have h3 : Int.log 2 |x| = k := by omega
  unfold roundDouble
  rw [if_neg hx, h3]

/-- The nearest integer, from a distance below one half. -/
theorem roundNearestEven_of_near (q : ℚ) (n : Int) (h1 : q - n < 1 / 2) (h2 : n - q < 1 / 2) :
    roundNearestEven q = n := by
  have hf1 : (⌊q⌋ : ℚ) ≤ q := Int.floor_le q
  have hf2 : q < (⌊q⌋ : ℚ) + 1 := Int.lt_floor_add_one q
  have hlo : n - 1 ≤ ⌊q⌋ := by
    have : ((n - 1 : Int) : ℚ) < (⌊q⌋ : ℚ) + 1 := by
      push_cast
      linarith
    have : n - 1 < ⌊q⌋ + 1 := by exact_mod_cast this
    omega
  have hhi : ⌊q⌋ ≤ n := by
    have : (⌊q⌋ : ℚ) < ((n + 1 : Int) : ℚ) := by
      push_cast
      linarith
    have : ⌊q⌋ < n + 1 := by exact_mod_cast this
    omega
  rcases lt_or_eq_of_le hhi with hlt | heq
  · have hfl : ⌊q⌋ = n - 1 := by omega
    unfold roundNearestEven
    simp only
    rw [hfl]
    have hfrac : (1 : ℚ) / 2 < q - ((n - 1 : Int) : ℚ) := by
      push_cast
      linarith
    rw [if_neg (by linarith), if_pos hfrac]
    omega
  · unfold roundNearestEven
    simp only
    rw [heq, if_pos h1]

/-- Integers below `2 ^ 53` in size are doubles. -/
theorem roundDouble_intCast (n : Int) (h : |n| < 2 ^ 53) : roundDouble (n : ℚ) = n := by
  by_cases hn : n = 0
  · rw [hn]
    simp [roundDouble]
  · have hpos : (0 : ℚ) < |(n : ℚ)| := abs_pos.mpr (by exact_mod_cast hn)
    have hone : (1 : ℚ) ≤ |(n : ℚ)| := by
      have : 1 ≤ |n| := Int.one_le_abs hn
      exact_mod_cast this
    have hlt : |(n : ℚ)| < (2 : ℚ) ^ (53 : Int) := by
      have h0 : ((|n| : Int) : ℚ) < ((2 ^ 53 : Int) : ℚ) := by exact_mod_cast h
      rw [Int.cast_abs] at h0
      norm_num at h0 ⊢
      exact h0
    have h1 : 0 ≤ Int.log 2 |(n : ℚ)| :=
      (Int.zpow_le_iff_le_log (b := 2) (by norm_num) hpos).1 (by simpa using hone)
    have h2 : Int.log 2 |(n : ℚ)| < 53 :=
      (Int.lt_zpow_iff_log_lt (b := 2) (by norm_num) hpos).1 (by exact_mod_cast hlt)
    obtain ⟨m, hm⟩ : ∃ m : Nat, (m : Int) = 52 - Int.log 2 |(n : ℚ)| :=
      ⟨(52 - Int.log 2 |(n : ℚ)|).toNat, Int.toNat_of_nonneg (by omega)⟩
    have he : Int.log 2 |(n : ℚ)| - 52 = -(m : Int) := by omega
    have hgrid : (n : ℚ) = ((n * 2 ^ m : Int) : ℚ) * (2 : ℚ) ^ (-(m : Int)) := by
      rw [zpow_neg, zpow_natCast]
      push_cast
      field_simp
    unfold roundDouble
    rw [if_neg (by exact_mod_cast hn), he]
    conv_lhs => rw [hgrid]
    rw [roundToGrid_grid, ← hgrid]

theorem roundDouble_tiny_negative :
    roundDouble (headingBelow60 + ((-60 : Int) : ℚ))
      = -1 / 140737488355328 := by
  have hx : (headingBelow60 + ((-60 : Int) : ℚ) : ℚ)
      = ((-(2 ^ 52) : Int) : ℚ) * (2 : ℚ) ^ ((-47 : Int) - 52) := by
    norm_num [headingBelow60]
  rw [roundDouble_of_binade _ (-47) (by norm_num [headingBelow60, abs_eq_max_neg])
    (by norm_num [headingBelow60, abs_eq_max_neg])]
  rw [hx, roundToGrid_grid]
  norm_num

theorem roundDouble_below_360 :
    roundDouble (-1 / 140737488355328 + 360) = 360 := by
  rw [roundDouble_of_binade _ 8 (by norm_num [abs_eq_max_neg]) (by norm_num [abs_eq_max_neg])]
  unfold roundToGrid
  rw [roundNearestEven_of_near _ (360 * 2 ^ 44) (by norm_num) (by norm_num)]
  norm_num


/-- The rounded wrap keeps a heading that left `[0, 360)` by at most 60 degrees in the
closed interval `[0, 360]`. -/
theorem wrapHeadingDouble_range (s : ℚ) (hlo : -60 ≤ s) (hhi : s ≤ 420) :
    0 ≤ wrapHeadingDouble s ∧ wrapHeadingDouble s ≤ 360 := by
  have r0 : roundDouble 0 = 0 := roundDouble_zero
  have r60 : roundDouble 60 = 60 := by
    have h := roundDouble_intCast 60 (by norm_num)
    simpa using h
  have r300 : roundDouble 300 = 300 := by
    have h := roundDouble_intCast 300 (by norm_num)
    simpa using h
  have r360 : roundDouble 360 = 360 := by
    have h := roundDouble_intCast 360 (by norm_num)
    simpa using h
  unfold wrapHeadingDouble
  by_cases h1 : s ≥ 360
  · have a0 : roundDouble 0 ≤ roundDouble (s - 360) := roundDouble_mono (by linarith)
    have a1 : roundDouble (s - 360) ≤ roundDouble 60 := roundDouble_mono (by linarith)
    have h2 : ¬ (roundDouble (s - 360) < 0) := by linarith
    simp only [h1, if_true, h2, if_false]
    constructor <;> linarith
  · by_cases h2 : s < 0
    · have a0 : roundDouble 300 ≤ roundDouble (s + 360) := roundDouble_mono (by linarith)
      have a1 : roundDouble (s + 360) ≤ roundDouble 360 := roundDouble_mono (by linarith)
      simp only [h1, if_false, h2, if_true]
      constructor <;> linarith
    · simp only [h1, if_false, h2]
      constructor <;> linarith

/-- C10 fails in the double arithmetic of the source: for the heading 59.99999999999999
(the double `60 - 2 ^ (-47)`) and a third draw that is a multiple of 120, so that the
offset is -60, the sum is `-2 ^ (-47)`, and adding 360 gives 360.0, the double nearest to
`360 - 2 ^ (-47)`; the new target heading is 360, not below 360. -/
theorem setNewTargets_heading_rounds_to_360 :
    (0 ≤ (sampleEntity headingBelow60 20 30000 30000 400 400).heading ∧
        (sampleEntity headingBelow60 20 30000 30000 400 400).heading < 360) ∧
      (setNewTargetsDouble (sampleEntity headingBelow60 20 30000 30000 400 400)
        5000 50 0).targetHeading = 360 ∧
      ¬ ((setNewTargetsDouble (sampleEntity headingBelow60 20 30000 30000 400 400)
        5000 50 0).targetHeading < 360) := by
  have hv : (setNewTargetsDouble (sampleEntity headingBelow60 20 30000 30000 400 400)
      5000 50 0).targetHeading = 360 := by
    have hsum : roundDouble (headingBelow60 + (((((0 % 120 : Nat) : Int) - 60 : Int)) : ℚ))
        = -1 / 140737488355328 := roundDouble_tiny_negative
    simp only [setNewTargetsDouble, sampleEntity, wrapHeadingDouble]
    rw [hsum]
    have h1 : ¬ ((-1 / 140737488355328 : ℚ) ≥ 360) := by norm_num
    have h2 : (-1 / 140737488355328 : ℚ) < 0 := by norm_num
    simp only [h1, if_false, h2, if_true]
    exact roundDouble_below_360
  refine ⟨⟨by norm_num [sampleEntity, headingBelow60],
    by norm_num [sampleEntity, headingBelow60]⟩, hv, ?_⟩
  rw [hv]
  norm_num

/-- C10, amended: for an entity with heading in `[0, 360)` and any three draws, with
offsets `-5000 ≤ d1 < 5000`, `-50 ≤ d2 < 50` and `-60 ≤ d3 < 60`. In exact arithmetic
`setNewTargets` sets the target altitude to `altitude + d1` clamped to `[20000, 40000]`,
the target speed to `speed + d2` clamped to `[300, 600]` and the target heading to a value
of `[0, 360)` that differs from `heading + d3` by a whole number of turns. In the double
arithmetic of the source the two clamps are those of the rounded sums and lie in their
ranges, and the target heading lies in the closed interval `[0, 360]`. In both no other
field changes. -/
theorem setNewTargets_bounds (e : SimulatedEntity) (r1 r2 r3 : Nat)
    (hh0 : 0 ≤ e.heading) (hh1 : e.heading < 360) :
    ∃ d1 d2 d3 k : Int,
      (-5000 ≤ d1 ∧ d1 < 5000) ∧ (-50 ≤ d2 ∧ d2 < 50) ∧ (-60 ≤ d3 ∧ d3 < 60) ∧
      (setNewTargets e r1 r2 r3).targetAlt = clamp (e.altitude + d1) 20000 40000 ∧
      (20000 ≤ (setNewTargets e r1 r2 r3).targetAlt ∧
        (setNewTargets e r1 r2 r3).targetAlt ≤ 40000) ∧
      (setNewTargets e r1 r2 r3).targetSpeed = clamp (e.speed + d2) 300 600 ∧
      (300 ≤ (setNewTargets e r1 r2 r3).targetSpeed ∧
        (setNewTargets e r1 r2 r3).targetSpeed ≤ 600) ∧
      (setNewTargets e r1 r2 r3).targetHeading = e.heading + d3 + 360 * (k : ℚ) ∧
      (0 ≤ (setNewTargets e r1 r2 r3).targetHeading ∧
        (setNewTargets e r1 r2 r3).targetHeading < 360) ∧
      setNewTargets e r1 r2 r3 =
        { e with
          targetAlt := (setNewTargets e r1 r2 r3).targetAlt
          targetSpeed := (setNewTargets e r1 r2 r3).targetSpeed
          targetHeading := (setNewTargets e r1 r2 r3).targetHeading } ∧
      (setNewTargetsDouble e r1 r2 r3).targetAlt
        = clamp (roundDouble (e.altitude + d1)) 20000 40000 ∧
      (20000 ≤ (setNewTargetsDouble e r1 r2 r3).targetAlt ∧
        (setNewTargetsDouble e r1 r2 r3).targetAlt ≤ 40000) ∧
      (setNewTargetsDouble e r1 r2 r3).targetSpeed
        = clamp (roundDouble (e.speed + d2)) 300 600 ∧
      (300 ≤ (setNewTargetsDouble e r1 r2 r3).targetSpeed ∧
        (setNewTargetsDouble e r1 r2 r3).targetSpeed ≤ 600) ∧
      (setNewTargetsDouble e r1 r2 r3).targetHeading
        = wrapHeadingDouble (roundDouble (e.heading + d3)) ∧
      (0 ≤ (setNewTargetsDouble e r1 r2 r3).targetHeading ∧
        (setNewTargetsDouble e r1 r2 r3).targetHeading ≤ 360) ∧
      setNewTargetsDouble e r1 r2 r3 =
        { e with
          targetAlt := (setNewTargetsDouble e r1 r2 r3).targetAlt
          targetSpeed := (setNewTargetsDouble e r1 r2 r3).targetSpeed
          targetHeading := (setNewTargetsDouble e r1 r2 r3).targetHeading } := by
  obtain ⟨a1, a2⟩ := draw_offset_range r1 10000 5000 rfl (by decide)
  obtain ⟨b1, b2⟩ := draw_offset_range r2 100 50 rfl (by decide)
  obtain ⟨c1, c2⟩ := draw_offset_range r3 120 60 rfl (by decide)
  obtain ⟨k, hk⟩ := wrapHeading_turns
    (e.heading + (((((r3 % 120 : Nat) : Int) - 60 : Int)) : ℚ))
  have c1q : (-60 : ℚ) ≤ (((((r3 % 120 : Nat) : Int) - 60 : Int)) : ℚ) := by exact_mod_cast c1
  have c2q : (((((r3 % 120 : Nat) : Int) - 60 : Int)) : ℚ) < 60 := by exact_mod_cast c2
  have rm60 : roundDouble (-60) = -60 := by
    have h := roundDouble_intCast (-60) (by norm_num)
    simpa using h
  have r420 : roundDouble 420 = 420 := by
    have h := roundDouble_intCast 420 (by norm_num)
    simpa using h
  have s0 : roundDouble (-60)
      ≤ roundDouble (e.heading + (((((r3 % 120 : Nat) : Int) - 60 : Int)) : ℚ)) :=
    roundDouble_mono (by linarith)
  have s1 : roundDouble (e.heading + (((((r3 % 120 : Nat) : Int) - 60 : Int)) : ℚ))
      ≤ roundDouble 420 := roundDouble_mono (by linarith)
  refine ⟨((r1 % 10000 : Nat) : Int) - 5000, ((r2 % 100 : Nat) : Int) - 50,
    ((r3 % 120 : Nat) : Int) - 60, k, ⟨by simpa using a1, by simpa using a2⟩,
    ⟨by simpa using b1, by simpa using b2⟩, ⟨by simpa using c1, by simpa using c2⟩,
    ?_, ?_, ?_, ?_, ?_, ?_, rfl, ?_, ?_, ?_, ?_, rfl, ?_, rfl⟩
  · exact qBound_eq_clamp _ _ _ (by norm_num)
  · exact qBound_range _ _ _ (by norm_num)
  · exact qBound_eq_clamp _ _ _ (by norm_num)
  · exact qBound_range _ _ _ (by norm_num)
  · exact hk
  · exact wrapHeading_range _ (by linarith) (by linarith)
  · exact qBound_eq_clamp _ _ _ (by norm_num)
  · exact qBound_range _ _ _ (by norm_num)
  · exact qBound_eq_clamp _ _ _ (by norm_num)
  · exact qBound_range _ _ _ (by norm_num)
  · exact wrapHeadingDouble_range _ (by linarith) (by linarith)

theorem setNewTargets_bounds_witness :
    ∃ d1 d2 d3 k : Int,
      (-5000 ≤ d1 ∧ d1 < 5000) ∧ (-50 ≤ d2 ∧ d2 < 50) ∧ (-60 ≤ d3 ∧ d3 < 60) ∧
      (setNewTargets (sampleEntity 350 20 38000 30000 590 400) 9000 99 100).targetAlt
        = clamp ((sampleEntity 350 20 38000 30000 590 400).altitude + d1) 20000 40000 ∧
      (20000 ≤ (setNewTargets (sampleEntity 350 20 38000 30000 590 400) 9000 99 100).targetAlt ∧
        (setNewTargets (sampleEntity 350 20 38000 30000 590 400) 9000 99 100).targetAlt
          ≤ 40000) ∧
      (setNewTargets (sampleEntity 350 20 38000 30000 590 400) 9000 99 100).targetSpeed
        = clamp ((sampleEntity 350 20 38000 30000 590 400).speed + d2) 300 600 ∧
      (300 ≤ (setNewTargets (sampleEntity 350 20 38000 30000 590 400) 9000 99 100).targetSpeed ∧
        (setNewTargets (sampleEntity 350 20 38000 30000 590 400) 9000 99 100).targetSpeed
          ≤ 600) ∧
      (setNewTargets (sampleEntity 350 20 38000 30000 590 400) 9000 99 100).targetHeading
        = (sampleEntity 350 20 38000 30000 590 400).heading + d3 + 360 * (k : ℚ) ∧
      (0 ≤ (setNewTargets (sampleEntity 350 20 38000 30000 590 400) 9000 99 100).targetHeading ∧
        (setNewTargets (sampleEntity 350 20 38000 30000 590 400) 9000 99 100).targetHeading
          < 360) ∧
      setNewTargets (sampleEntity 350 20 38000 30000 590 400) 9000 99 100 =
        { sampleEntity 350 20 38000 30000 590 400 with
          targetAlt :=
            (setNewTargets (sampleEntity 350 20 38000 30000 590 400) 9000 99 100).targetAlt,
          targetSpeed :=
            (setNewTargets (sampleEntity 350 20 38000 30000 590 400) 9000 99 100).targetSpeed,
          targetHeading :=
            (setNewTargets (sampleEntity 350 20 38000 30000 590 400) 9000 99 100).targetHeading } ∧
      (setNewTargetsDouble (sampleEntity 350 20 38000 30000 590 400) 9000 99 100).targetAlt
        = clamp (roundDouble ((sampleEntity 350 20 38000 30000 590 400).altitude + d1))
          20000 40000 ∧
      (20000 ≤
          (setNewTargetsDouble (sampleEntity 350 20 38000 30000 590 400) 9000 99 100).targetAlt ∧
        (setNewTargetsDouble (sampleEntity 350 20 38000 30000 590 400) 9000 99 100).targetAlt
          ≤ 40000) ∧
      (setNewTargetsDouble (sampleEntity 350 20 38000 30000 590 400) 9000 99 100).targetSpeed
        = clamp (roundDouble ((sampleEntity 350 20 38000 30000 590 400).speed + d2)) 300 600 ∧
      (300 ≤
          (setNewTargetsDouble (sampleEntity 350 20 38000 30000 590 400) 9000 99 100).targetSpeed ∧
        (setNewTargetsDouble (sampleEntity 350 20 38000 30000 590 400) 9000 99 100).targetSpeed
          ≤ 600) ∧
      (setNewTargetsDouble (sampleEntity 350 20 38000 30000 590 400) 9000 99 100).targetHeading
        = wrapHeadingDouble
          (roundDouble ((sampleEntity 350 20 38000 30000 590 400).heading + d3)) ∧
      (0 ≤
          (setNewTargetsDouble (sampleEntity 350 20 38000 30000 590 400) 9000 99
            100).targetHeading ∧
        (setNewTargetsDouble (sampleEntity 350 20 38000 30000 590 400) 9000 99
          100).targetHeading ≤ 360) ∧
      setNewTargetsDouble (sampleEntity 350 20 38000 30000 590 400) 9000 99 100 =
        { sampleEntity 350 20 38000 30000 590 400 with
          targetAlt :=
            (setNewTargetsDouble (sampleEntity 350 20 38000 30000 590 400) 9000 99
              100).targetAlt,
          targetSpeed :=
            (setNewTargetsDouble (sampleEntity 350 20 38000 30000 590 400) 9000 99
              100).targetSpeed,
          targetHeading :=
            (setNewTargetsDouble (sampleEntity 350 20 38000 30000 590 400) 9000 99
              100).targetHeading } :=
  setNewTargets_bounds (sampleEntity 350 20 38000 30000 590 400) 9000 99 100
    (by norm_num [sampleEntity]) (by norm_num [sampleEntity])

/-! ### The bounds of the amended statements are tight -/

/-- One millisecond more than 120000 lets the heading leave `[0, 360)`. -/
theorem heading_wrap_bound_tight :
    ¬ ((updateDynamics (sampleEntity (359999 / 1000) 90 30000 30000 400 400) 120001).heading
      < 360) := by
  rw [updateDynamics_heading_eq]
  norm_num [sampleEntity, turnDirection, headingDiff, wrapHeading, abs_eq_max_neg]

/-- One millisecond more than 666 lets the angular distance grow from 1. -/
theorem heading_monotone_bound_tight :
    ¬ (angularDistance
        (updateDynamics (sampleEntity (719 / 2) (1 / 2) 30000 30000 400 400) 667).heading
        (updateDynamics (sampleEntity (719 / 2) (1 / 2) 30000 30000 400 400) 667).targetHeading
      ≤ angularDistance (sampleEntity (719 / 2) (1 / 2) 30000 30000 400 400).heading
        (sampleEntity (719 / 2) (1 / 2) 30000 30000 400 400).targetHeading) := by
  rw [updateDynamics_targetHeading, updateDynamics_heading_eq]
  norm_num [sampleEntity, turnDirection, headingDiff, wrapHeading, angularDistance,
    abs_eq_max_neg]

/-- Headings closer than 1 degree across the seam are turned, and the angular distance
grows even for a short tick. -/
theorem heading_not_monotone_across_seam :
    ¬ (angularDistance
        (updateDynamics (sampleEntity (3599 / 10) (1 / 10) 30000 30000 400 400) 300).heading
        (updateDynamics (sampleEntity (3599 / 10) (1 / 10) 30000 30000 400 400) 300).targetHeading
      ≤ angularDistance (sampleEntity (3599 / 10) (1 / 10) 30000 30000 400 400).heading
        (sampleEntity (3599 / 10) (1 / 10) 30000 30000 400 400).targetHeading) := by
  rw [updateDynamics_targetHeading, updateDynamics_heading_eq]
  norm_num [sampleEntity, turnDirection, headingDiff, wrapHeading, angularDistance,
    abs_eq_max_neg]

/-- One millisecond more than 6000 lets the altitude distance grow. -/
theorem altitude_monotone_bound_tight :
    ¬ (|(updateDynamics (sampleEntity 0 0 30000 (3010001 / 100) 400 400) 6001).altitude -
        (updateDynamics (sampleEntity 0 0 30000 (3010001 / 100) 400 400) 6001).targetAlt|
      ≤ |(sampleEntity 0 0 30000 (3010001 / 100) 400 400).altitude -
        (sampleEntity 0 0 30000 (3010001 / 100) 400 400).targetAlt|) := by
  rw [updateDynamics_targetAlt, updateDynamics_altitude_eq]
  norm_num [sampleEntity, abs_eq_max_neg]

/-- One millisecond more than 24000 lets the speed distance grow. -/
theorem speed_monotone_bound_tight :
    ¬ (|(updateDynamics (sampleEntity 0 0 30000 30000 400 (4100004 / 10000)) 24001).speed -
        (updateDynamics (sampleEntity 0 0 30000 30000 400 (4100004 / 10000)) 24001).targetSpeed|
      ≤ |(sampleEntity 0 0 30000 30000 400 (4100004 / 10000)).speed -
        (sampleEntity 0 0 30000 30000 400 (4100004 / 10000)).targetSpeed|) := by
  rw [updateDynamics_targetSpeed, updateDynamics_speed_eq]
  norm_num [sampleEntity, abs_eq_max_neg]

/-! ### Simulation tick -/

theorem updatePosition_speed (lm : Libm) (e : SimulatedEntity) (d : ℚ) :
    (updatePosition lm e d).speed = e.speed := rfl

theorem updatePosition_targetSpeed (lm : Libm) (e : SimulatedEntity) (d : ℚ) :
    (updatePosition lm e d).targetSpeed = e.targetSpeed := rfl

theorem updatePosition_altitude (lm : Libm) (e : SimulatedEntity) (d : ℚ) :
    (updatePosition lm e d).altitude = e.altitude := rfl

theorem updatePosition_targetAlt (lm : Libm) (e : SimulatedEntity) (d : ℚ) :
    (updatePosition lm e d).targetAlt = e.targetAlt := rfl

/-- An altitude step of at most 100 ft stays between the altitude and its target. -/
theorem altitude_step_range (a t dt : ℚ) (h0 : 0 ≤ dt) (h1 : dt ≤ 3)
    (ha : 20000 ≤ a ∧ a ≤ 40000) (ht : 20000 ≤ t ∧ t ≤ 40000) :
    20000 ≤ (if |a - t| > 100 then
        a + ((if t - a > 0 then (2000 : ℚ) else -2000) / 60) * dt else a) ∧
      (if |a - t| > 100 then
        a + ((if t - a > 0 then (2000 : ℚ) else -2000) / 60) * dt else a) ≤ 40000 := by
  by_cases hgt : |a - t| > 100
  · rw [if_pos hgt]
    rcases abs_cases (a - t) with ⟨e1, c1⟩ | ⟨e1, c1⟩
    · rw [e1] at hgt
      have hneg : ¬ (t - a > 0) := by linarith
      rw [if_neg hneg]
      constructor <;> linarith [ha.1, ha.2, ht.1, ht.2]
    · rw [e1] at hgt
      have hpos : t - a > 0 := by linarith
      rw [if_pos hpos]
      constructor <;> linarith [ha.1, ha.2, ht.1, ht.2]
  · rw [if_neg hgt]
    exact ha

/-- A speed step of at most 10 kt stays between the speed and its target. -/
theorem speed_step_range (a t dt : ℚ) (h0 : 0 ≤ dt) (h1 : dt ≤ 12)
    (ha : 300 ≤ a ∧ a ≤ 600) (ht : 300 ≤ t ∧ t ≤ 600) :
    300 ≤ (if |a - t| > 10 then
        a + ((if t - a > 0 then (50 : ℚ) else -50) / 60) * dt else a) ∧
      (if |a - t| > 10 then
        a + ((if t - a > 0 then (50 : ℚ) else -50) / 60) * dt else a) ≤ 600 := by
  by_cases hgt : |a - t| > 10
  · rw [if_pos hgt]
    rcases abs_cases (a - t) with ⟨e1, c1⟩ | ⟨e1, c1⟩
    · rw [e1] at hgt
      have hneg : ¬ (t - a > 0) := by linarith
      rw [if_neg hneg]
      constructor <;> linarith [ha.1, ha.2, ht.1, ht.2]
    · rw [e1] at hgt
      have hpos : t - a > 0 := by linarith
      rw [if_pos hpos]
      constructor <;> linarith [ha.1, ha.2, ht.1, ht.2]
  · rw [if_neg hgt]
    exact ha

/-- A tick of at most 3000 ms keeps `updateDynamics` inside the ranges. -/
theorem updateDynamics_inRange (e : SimulatedEntity) (deltaMs : Int) (h : InRange e)
    (hd0 : 0 ≤ deltaMs) (hd1 : deltaMs ≤ 3000) : InRange (updateDynamics e deltaMs) := by
  obtain ⟨hs, hts, ha, hta⟩ := h
  have hq0 : (0 : ℚ) ≤ (deltaMs : ℚ) / 1000 := by
    have : (0 : ℚ) ≤ (deltaMs : ℚ) := by exact_mod_cast hd0
    positivity
  have hq1 : (deltaMs : ℚ) / 1000 ≤ 3 := by
    have : (deltaMs : ℚ) ≤ 3000 := by exact_mod_cast hd1
    linarith
  unfold InRange
  rw [updateDynamics_targetSpeed, updateDynamics_targetAlt, updateDynamics_speed_eq,
    updateDynamics_altitude_eq]
  exact ⟨speed_step_range _ _ _ hq0 (by linarith) hs hts, hts,
    altitude_step_range _ _ _ hq0 hq1 ha hta, hta⟩

/-- Re-targeting keeps an entity inside the ranges. -/
theorem setNewTargets_inRange (e : SimulatedEntity) (r1 r2 r3 : Nat) (h : InRange e) :
    InRange (setNewTargets e r1 r2 r3) := by
  obtain ⟨hs, _, ha, _⟩ := h
  exact ⟨hs, qBound_range _ _ _ (by norm_num), ha, qBound_range _ _ _ (by norm_num)⟩

/-- One tick of at most 3000 ms keeps an entity inside the ranges. -/
theorem entityTick_inRange (lm : Libm) (e : SimulatedEntity) (deltaMs : Int)
    (draw : Nat → Nat) (k : Nat) (h : InRange e) (hd0 : 0 ≤ deltaMs)
    (hd1 : deltaMs ≤ 3000) : InRange (entityTick lm e deltaMs draw k).1 := by
  have h1 : InRange (updatePosition lm e
      (e.speed * ((deltaMs : ℚ) / (1000 * 60 * 60)) * 1.852)) := h
  have h2 := updateDynamics_inRange _ deltaMs h1 hd0 hd1
  unfold entityTick
  by_cases hr : draw k % 100 < 5
  · simp only [hr, if_true]
    exact setNewTargets_inRange _ _ _ _ h2
  · simp only [hr, if_false]
    exact h2

/-- An entry of a map after `qmapSet` is the new entry or an old one. -/
theorem mem_qmapSet {α : Type} (k : String) (v : α) (l : List (String × α))
    (x : String × α) (hx : x ∈ qmapSet k v l) : x = (k, v) ∨ x ∈ l := by
  induction l with
  | nil =>
    simp only [qmapSet, List.mem_singleton] at hx
    exact Or.inl hx
  | cons head rest ih =>
    obtain ⟨k1, v1⟩ := head
    simp only [qmapSet] at hx
    split_ifs at hx with h1 h2
    · rcases List.mem_cons.mp hx with h | h
      · exact Or.inl h
      · exact Or.inr (List.mem_cons_of_mem _ h)
    · rcases List.mem_cons.mp hx with h | h
      · exact Or.inl h
      · exact Or.inr h
    · rcases List.mem_cons.mp hx with h | h
      · exact Or.inr (h ▸ List.mem_cons_self _ _)
      · rcases ih h with h' | h'
        · exact Or.inl h'
        · exact Or.inr (List.mem_cons_of_mem _ h')

/-- An entity created at an altitude of `[20000, 40000]` is inside the ranges, and so the
entity map stays inside them. -/
theorem createSimulatedEntity_inRange (ext : External) (m : NetworkedEWAM) (id type : String)
    (lat lon altitude : ℚ) (rSpeed rHeading : Nat)
    (hm : ∀ p ∈ m.entities, InRange p.2) (ha : 20000 ≤ altitude ∧ altitude ≤ 40000) :
    ∀ p ∈ (createSimulatedEntity ext m id type lat lon altitude rSpeed rHeading).entities,
      InRange p.2 := by
  intro p hp
  have hlt := Nat.mod_lt rSpeed (by decide : 0 < 200)
  have hs0 : (300 : ℚ) ≤ ((400 + rSpeed % 200 : Nat) : ℚ) := by
    have : 300 ≤ 400 + rSpeed % 200 := by omega
    exact_mod_cast this
  have hs1 : ((400 + rSpeed % 200 : Nat) : ℚ) ≤ 600 := by
    have : 400 + rSpeed % 200 ≤ 600 := by omega
    exact_mod_cast this
  rcases mem_qmapSet _ _ _ p hp with h | h
  · rw [h]
    exact ⟨⟨hs0, hs1⟩, ⟨hs0, hs1⟩, ha, ha⟩
  · exact hm p h

theorem createSimulatedEmitter_entities (ext : External) (m : NetworkedEWAM)
    (id type category : String) (lat lon : ℚ) (rMin rMax : Nat) :
    (createSimulatedEmitter ext m id type category lat lon rMin rMax).entities = m.entities :=
  rfl

theorem convoyEntity_inRange (ext : External) (m : NetworkedEWAM) (i : Nat)
    (draw : Nat → Nat) (k : Nat) (hm : ∀ p ∈ m.entities, InRange p.2) :
    ∀ p ∈ (convoyEntity ext m i draw k).entities, InRange p.2 := by
  unfold convoyEntity
  apply createSimulatedEntity_inRange _ _ _ _ _ _ _ _ _ hm
  have hlt := Nat.mod_lt (draw (k + 2)) (by decide : 0 < 4000)
  constructor
  · have : 20000 ≤ 28000 + draw (k + 2) % 4000 := by omega
    exact_mod_cast this
  · have : 28000 + draw (k + 2) % 4000 ≤ 40000 := by omega
    exact_mod_cast this

/-- Loading a scenario keeps the entity map inside the ranges: every preset altitude lies
in `[20000, 40000]` and every drawn speed in `[400, 599]`. -/
theorem initializeSimulation_inRange (ext : External) (m : NetworkedEWAM) (scenario : String)
    (draw : Nat → Nat) (hm : ∀ p ∈ m.entities, InRange p.2) :
    ∀ p ∈ (initializeSimulation ext m scenario draw).entities, InRange p.2 := by
  unfold initializeSimulation
  split_ifs
  · simp only [createSimulatedEmitter_entities]
    refine createSimulatedEntity_inRange _ _ _ _ _ _ _ _ _
      (createSimulatedEntity_inRange _ _ _ _ _ _ _ _ _
        (createSimulatedEntity_inRange _ _ _ _ _ _ _ _ _ hm ?_) ?_) ?_ <;> norm_num
  · refine createSimulatedEntity_inRange _ _ _ _ _ _ _ _ _
      (createSimulatedEntity_inRange _ _ _ _ _ _ _ _ _
        (convoyEntity_inRange _ _ _ _ _
          (convoyEntity_inRange _ _ _ _ _
            (convoyEntity_inRange _ _ _ _ _ hm))) ?_) ?_ <;> norm_num
  · simp only [createSimulatedEmitter_entities]
    refine createSimulatedEntity_inRange _ _ _ _ _ _ _ _ _
      (createSimulatedEntity_inRange _ _ _ _ _ _ _ _ _
        (createSimulatedEntity_inRange _ _ _ _ _ _ _ _ _
          (createSimulatedEntity_inRange _ _ _ _ _ _ _ _ _
            (createSimulatedEntity_inRange _ _ _ _ _ _ _ _ _ hm ?_) ?_) ?_) ?_) ?_ <;> norm_num
  · simp only [createSimulatedEmitter_entities]
    refine createSimulatedEntity_inRange _ _ _ _ _ _ _ _ _ hm ?_
    norm_num
  · exact hm

/-- C11 fails for a long tick: an entity at 39850 ft with target 40000 ft, inside the
ranges, is at 40050 ft after one tick of 6000 ms. -/
theorem entity_range_fails_for_long_tick :
    InRange (sampleEntity 0 0 39850 40000 400 400) ∧
      (0 : Int) ≤ 6000 ∧
      (entityTick sampleLibm (sampleEntity 0 0 39850 40000 400 400) 6000
        (fun _ => 50) 0).1.altitude = 40050 ∧
      ¬ InRange (entityTick sampleLibm (sampleEntity 0 0 39850 40000 400 400) 6000
        (fun _ => 50) 0).1 := by
  have halt : (entityTick sampleLibm (sampleEntity 0 0 39850 40000 400 400) 6000
      (fun _ => 50) 0).1.altitude = 40050 := by
    simp only [entityTick]
    norm_num
    rw [updateDynamics_altitude_eq]
    norm_num [updatePosition, sampleEntity, abs_eq_max_neg]
  refine ⟨by norm_num [InRange, sampleEntity], by decide, halt, ?_⟩
  intro h
  have h1 := h.2.2.1.2
  rw [halt] at h1
  norm_num at h1

/-- C11, amended: for an entity whose speed and target speed lie in `[300, 600]` and whose
altitude and target altitude lie in `[20000, 40000]`, for a tick `0 ≤ deltaMs ≤ 3000` and
for every outcome of the draws, the four values lie in their ranges after one tick
(`updatePosition`, `updateDynamics`, optional `setNewTargets`); and every entity of a
freshly loaded scenario lies in the ranges, for every scenario name and all draws. -/
theorem entity_range_invariant (lm : Libm) (e : SimulatedEntity) (deltaMs : Int)
    (draw : Nat → Nat) (k : Nat) (h : InRange e) (hd0 : 0 ≤ deltaMs)
    (hd1 : deltaMs ≤ 3000) :
    InRange (entityTick lm e deltaMs draw k).1 ∧
      ∀ (ext : External) (scenario : String) (draw0 : Nat → Nat),
        ∀ p ∈ (initializeSimulation ext NetworkedEWAM.construct scenario draw0).entities,
          InRange p.2 :=
  ⟨entityTick_inRange lm e deltaMs draw k h hd0 hd1,
    fun ext scenario draw0 =>
      initializeSimulation_inRange ext NetworkedEWAM.construct scenario draw0
        (fun p hp => absurd hp (List.not_mem_nil p))⟩

theorem entity_range_invariant_witness :
    InRange (entityTick sampleLibm (sampleEntity 0 0 39850 40000 400 450) 3000
        (fun _ => 3) 0).1 ∧
      ∀ (ext : External) (scenario : String) (draw0 : Nat → Nat),
        ∀ p ∈ (initializeSimulation ext NetworkedEWAM.construct scenario draw0).entities,
          InRange p.2 :=
  entity_range_invariant sampleLibm (sampleEntity 0 0 39850 40000 400 450) 3000
    (fun _ => 3) 0 (by norm_num [InRange, sampleEntity]) (by decide) (by decide)

/-- One millisecond more than 3000 lets the altitude pass 40000 ft. -/
theorem entity_range_bound_tight :
    InRange (sampleEntity 0 0 (3989999 / 100) 40000 400 400) ∧
      ¬ InRange (entityTick sampleLibm (sampleEntity 0 0 (3989999 / 100) 40000 400 400) 3001
        (fun _ => 50) 0).1 := by
  have halt : (entityTick sampleLibm (sampleEntity 0 0 (3989999 / 100) 40000 400 400) 3001
      (fun _ => 50) 0).1.altitude = 40000 + 7 / 300 := by
    simp only [entityTick]
    norm_num
    rw [updateDynamics_altitude_eq]
    norm_num [updatePosition, sampleEntity, abs_eq_max_neg]
  refine ⟨by norm_num [InRange, sampleEntity], ?_⟩
  intro h
  have h1 := h.2.2.1.2
  rw [halt] at h1
  norm_num at h1

/-! ### Emitters -/

theorem createSimulatedEntity_emitters (ext : External) (m : NetworkedEWAM) (id type : String)
    (lat lon altitude : ℚ) (rSpeed rHeading : Nat) :
    (createSimulatedEntity ext m id type lat lon altitude rSpeed rHeading).emitters
      = m.emitters := rfl

theorem convoyEntity_emitters (ext : External) (m : NetworkedEWAM) (i : Nat)
    (draw : Nat → Nat) (k : Nat) : (convoyEntity ext m i draw k).emitters = m.emitters := rfl

/-- The frequency band that `createSimulatedEmitter` draws. -/
theorem createSimulatedEmitter_band (ext : External) (m : NetworkedEWAM)
    (id type category : String) (lat lon : ℚ) (rMin rMax : Nat) :
    ∃ em : Emitter,
      (createSimulatedEmitter ext m id type category lat lon rMin rMax).emitters
          = qmapSet id em m.emitters ∧
        em.id = id ∧
        (8 ≤ em.freqMin ∧ em.freqMin ≤ 99 / 10) ∧
        (10 ≤ em.freqMax ∧ em.freqMax ≤ 119 / 10) ∧
        em.freqMin ≤ em.freqMax := by
  have h1 := Nat.mod_lt rMin (by decide : 0 < 20)
  have h2 := Nat.mod_lt rMax (by decide : 0 < 20)
  have a0 : (0 : ℚ) ≤ ((rMin % 20 : Nat) : ℚ) := Nat.cast_nonneg _
  have a1 : ((rMin % 20 : Nat) : ℚ) ≤ 19 := by
    have : rMin % 20 ≤ 19 := by omega
    exact_mod_cast this
  have b0 : (0 : ℚ) ≤ ((rMax % 20 : Nat) : ℚ) := Nat.cast_nonneg _
  have b1 : ((rMax % 20 : Nat) : ℚ) ≤ 19 := by
    have : rMax % 20 ≤ 19 := by omega
    exact_mod_cast this
  refine ⟨_, rfl, rfl, ⟨?_, ?_⟩, ⟨?_, ?_⟩, ?_⟩ <;> simp only <;> linarith

theorem createSimulatedEmitter_ordered (ext : External) (m : NetworkedEWAM)
    (id type category : String) (lat lon : ℚ) (rMin rMax : Nat)
    (hm : ∀ p ∈ m.emitters, p.2.freqMin ≤ p.2.freqMax) :
    ∀ p ∈ (createSimulatedEmitter ext m id type category lat lon rMin rMax).emitters,
      p.2.freqMin ≤ p.2.freqMax := by
  obtain ⟨em, hset, _, _, _, hord⟩ :=
    createSimulatedEmitter_band ext m id type category lat lon rMin rMax
  intro p hp
  rw [hset] at hp
  rcases mem_qmapSet _ _ _ p hp with h | h
  · rw [h]
    exact hord
  · exact hm p h

theorem initializeSimulation_ordered (ext : External) (m : NetworkedEWAM) (scenario : String)
    (draw : Nat → Nat) (hm : ∀ p ∈ m.emitters, p.2.freqMin ≤ p.2.freqMax) :
    ∀ p ∈ (initializeSimulation ext m scenario draw).emitters, p.2.freqMin ≤ p.2.freqMax := by
  unfold initializeSimulation
  split_ifs
  · exact createSimulatedEmitter_ordered _ _ _ _ _ _ _ _ _
      (createSimulatedEmitter_ordered _ _ _ _ _ _ _ _ _ hm)
  · exact hm
  · exact createSimulatedEmitter_ordered _ _ _ _ _ _ _ _ _
      (createSimulatedEmitter_ordered _ _ _ _ _ _ _ _ _ hm)
  · exact createSimulatedEmitter_ordered _ _ _ _ _ _ _ _ _ hm
  · exact hm

/-- Every entry that the emitter loop returns is an entry of the map after its tick. -/
theorem mem_updateEmitters (lm : Libm) (toJson : QJsonObject → Bytes) (m : NetworkedEWAM)
    (env : TickEnv) (l : List (String × Emitter)) :
    ∀ (i j : Nat), ∀ p ∈ (updateEmitters lm toJson m env l i j).1,
      ∃ q ∈ l, ∃ T : Int, p = (q.1, emitterTick lm q.2 T) := by
  induction l with
  | nil =>
    intro i j p hp
    simp [updateEmitters] at hp
  | cons head rest ih =>
    intro i j p hp
    obtain ⟨key, emitter⟩ := head
    simp only [updateEmitters] at hp
    rcases List.mem_cons.mp hp with h | h
    · exact ⟨(key, emitter), List.mem_cons_self _ _, env.now i, h⟩
    · obtain ⟨q, hq, T, hT⟩ := ih (i + 1) (j + 1) p h
      exact ⟨q, List.mem_cons_of_mem _ hq, T, hT⟩

theorem updateSimulation_ordered (lm : Libm) (toJson : QJsonObject → Bytes)
    (m : NetworkedEWAM) (deltaMs : Int) (env : TickEnv)
    (hm : ∀ p ∈ m.emitters, p.2.freqMin ≤ p.2.freqMax) :
    ∀ p ∈ (updateSimulation lm toJson m deltaMs env).1.emitters,
      p.2.freqMin ≤ p.2.freqMax := by
  intro p hp
  obtain ⟨q, hq, T, hT⟩ := mem_updateEmitters lm toJson m env m.emitters _ _ p hp
  rw [hT]
  exact hm q hq

/-! ### What the operations leave unchanged -/

theorem sendJson_manager (toJson : QJsonObject → Bytes) (m : NetworkedEWAM)
    (json : QJsonObject) (written : Int) (flushed : Bool) :
    (sendJson toJson m json written flushed).1 = m := by
  unfold sendJson
  split_ifs <;> rfl

theorem sendEntityUpdate_manager (toJson : QJsonObject → Bytes) (m : NetworkedEWAM)
    (entity : SimulatedEntity) (written : Int) (flushed : Bool) :
    (sendEntityUpdate toJson m entity written flushed).1 = m :=
  sendJson_manager toJson m _ written flushed

theorem sendEmitterUpdate_manager (toJson : QJsonObject → Bytes) (m : NetworkedEWAM)
    (emitter : Emitter) (written : Int) (flushed : Bool) :
    (sendEmitterUpdate toJson m emitter written flushed).1 = m :=
  sendJson_manager toJson m _ written flushed

theorem sendTestMessage_manager (toJson : QJsonObject → Bytes) (m : NetworkedEWAM)
    (message timestamp : String) (written : Int) (flushed : Bool) :
    (sendTestMessage toJson m message timestamp written flushed).1 = m :=
  sendJson_manager toJson m _ written flushed

theorem onReadyRead_manager (m : NetworkedEWAM) (sender : Option Nat) (lines : List Bytes) :
    (onReadyRead m sender lines).1 = m := by
  cases sender <;> rfl

theorem startServer_emitters (m : NetworkedEWAM) (port : Nat) (bindOk : Bool) :
    (startServer m port bindOk).1.emitters = m.emitters := by
  simp only [startServer]
  split_ifs <;> rfl

theorem startServer_autoReconnect (m : NetworkedEWAM) (port : Nat) (bindOk : Bool) :
    (startServer m port bindOk).1.autoReconnect = m.autoReconnect := by
  simp only [startServer]
  split_ifs <;> rfl

theorem stopServer_emitters (m : NetworkedEWAM) :
    (stopServer m).1.emitters = m.emitters := by
  unfold stopServer
  split <;> rfl

theorem stopServer_autoReconnect (m : NetworkedEWAM) :
    (stopServer m).1.autoReconnect = m.autoReconnect := by
  unfold stopServer
  split <;> rfl

theorem onNewConnection_emitters (m : NetworkedEWAM) (pending : Option Nat) :
    (onNewConnection m pending).emitters = m.emitters := by
  cases pending <;> rfl

theorem onNewConnection_autoReconnect (m : NetworkedEWAM) (pending : Option Nat) :
    (onNewConnection m pending).autoReconnect = m.autoReconnect := by
  cases pending <;> rfl

theorem onClientDisconnected_emitters (m : NetworkedEWAM) (sender : Option Nat) :
    (onClientDisconnected m sender).emitters = m.emitters := by
  cases sender <;> rfl

theorem onClientDisconnected_autoReconnect (m : NetworkedEWAM) (sender : Option Nat) :
    (onClientDisconnected m sender).autoReconnect = m.autoReconnect := by
  cases sender <;> rfl

theorem onDisconnected_emitters (m : NetworkedEWAM) :
    (onDisconnected m).emitters = m.emitters := by
  unfold onDisconnected
  split <;> rfl

theorem onError_emitters (m : NetworkedEWAM) (error : SocketError) :
    (onError m error).emitters = m.emitters := by
  unfold onError
  split_ifs <;> rfl

theorem onError_autoReconnect (m : NetworkedEWAM) (error : SocketError) :
    (onError m error).autoReconnect = m.autoReconnect := by
  unfold onError
  split_ifs <;> rfl

theorem createSimulatedEntity_autoReconnect (ext : External) (m : NetworkedEWAM)
    (id type : String) (lat lon altitude : ℚ) (rSpeed rHeading : Nat) :
    (createSimulatedEntity ext m id type lat lon altitude rSpeed rHeading).autoReconnect
      = m.autoReconnect := rfl

theorem createSimulatedEmitter_autoReconnect (ext : External) (m : NetworkedEWAM)
    (id type category : String) (lat lon : ℚ) (rMin rMax : Nat) :
    (createSimulatedEmitter ext m id type category lat lon rMin rMax).autoReconnect
      = m.autoReconnect := rfl

theorem convoyEntity_autoReconnect (ext : External) (m : NetworkedEWAM) (i : Nat)
    (draw : Nat → Nat) (k : Nat) :
    (convoyEntity ext m i draw k).autoReconnect = m.autoReconnect := rfl

theorem initializeSimulation_autoReconnect (ext : External) (m : NetworkedEWAM)
    (scenario : String) (draw : Nat → Nat) :
    (initializeSimulation ext m scenario draw).autoReconnect = m.autoReconnect := by
  unfold initializeSimulation
  split_ifs <;>
    simp only [createSimulatedEntity_autoReconnect, createSimulatedEmitter_autoReconnect,
      convoyEntity_autoReconnect]

/-- No operation touches `autoReconnect`. -/
theorem applyOp_autoReconnect (cx : Context) (m : NetworkedEWAM) (op : Op) :
    (applyOp cx m op).autoReconnect = m.autoReconnect := by
  cases op with
  | initializeSimulation scenario draw => exact initializeSimulation_autoReconnect _ _ _ _
  | updateSimulation deltaMs env => rfl
  | connectToHost host port => rfl
  | setReconnectInterval msecs => rfl
  | startServer port bindOk => exact startServer_autoReconnect _ _ _
  | stopServer => exact stopServer_autoReconnect _
  | sendTestMessage message timestamp written flushed =>
    simp only [applyOp, sendTestMessage_manager]
  | sendJson json written flushed => simp only [applyOp, sendJson_manager]
  | onNewConnection pending => exact onNewConnection_autoReconnect _ _
  | onReadyRead sender lines => simp only [applyOp, onReadyRead_manager]
  | onClientDisconnected sender => exact onClientDisconnected_autoReconnect _ _
  | onConnected => rfl
  | onDisconnected => exact onDisconnected_autoReconnect _
  | onError error => exact onError_autoReconnect _ _
  | tryReconnect => rfl
  | socketStateChanged s => rfl

/-- Every operation keeps the frequency bands of the emitter map ordered. -/
theorem applyOp_ordered (cx : Context) (m : NetworkedEWAM) (op : Op)
    (hm : ∀ p ∈ m.emitters, p.2.freqMin ≤ p.2.freqMax) :
    ∀ p ∈ (applyOp cx m op).emitters, p.2.freqMin ≤ p.2.freqMax := by
  cases op with
  | initializeSimulation scenario draw => exact initializeSimulation_ordered _ _ _ _ hm
  | updateSimulation deltaMs env => exact updateSimulation_ordered _ _ _ _ _ hm
  | connectToHost host port => exact hm
  | setReconnectInterval msecs => exact hm
  | startServer port bindOk =>
    simp only [applyOp, startServer_emitters]
    exact hm
  | stopServer =>
    simp only [applyOp, stopServer_emitters]
    exact hm
  | sendTestMessage message timestamp written flushed =>
    simp only [applyOp, sendTestMessage_manager]
    exact hm
  | sendJson json written flushed =>
    simp only [applyOp, sendJson_manager]
    exact hm
  | onNewConnection pending =>
    simp only [applyOp, onNewConnection_emitters]
    exact hm
  | onReadyRead sender lines =>
    simp only [applyOp, onReadyRead_manager]
    exact hm
  | onClientDisconnected sender =>
    simp only [applyOp, onClientDisconnected_emitters]
    exact hm
  | onConnected => exact hm
  | onDisconnected =>
    simp only [applyOp, onDisconnected_emitters]
    exact hm
  | onError error =>
    simp only [applyOp, onError_emitters]
    exact hm
  | tryReconnect => exact hm
  | socketStateChanged s => exact hm

theorem runOps_ordered (cx : Context) (ops : List Op) :
    ∀ m : NetworkedEWAM, (∀ p ∈ m.emitters, p.2.freqMin ≤ p.2.freqMax) →
      ∀ p ∈ (runOps cx m ops).emitters, p.2.freqMin ≤ p.2.freqMax := by
  induction ops with
  | nil =>
    intro m hm
    exact hm
  | cons op rest ih =>
    intro m hm
    exact ih (applyOp cx m op) (applyOp_ordered cx m op hm)

theorem runOps_autoReconnect (cx : Context) (ops : List Op) :
    ∀ m : NetworkedEWAM, (runOps cx m ops).autoReconnect = m.autoReconnect := by
  induction ops with
  | nil =>
    intro m
    rfl
  | cons op rest ih =>
    intro m
    exact (ih (applyOp cx m op)).trans (applyOp_autoReconnect cx m op)

/-- C12: for every pair of draws the emitter that `createSimulatedEmitter` stores has
`8 ≤ freqMin ≤ 9.9` and `10 ≤ freqMax ≤ 11.9`, hence `freqMin ≤ freqMax`; the emitter
branch of `updateSimulation` changes neither bound; and `freqMin ≤ freqMax` holds for
every emitter of the map after every sequence of operations on the constructed manager,
scenario loads and simulation ticks included. -/
theorem emitter_band_invariant :
    (∀ (ext : External) (m : NetworkedEWAM) (id type category : String) (lat lon : ℚ)
        (rMin rMax : Nat),
        ∃ em : Emitter,
          (createSimulatedEmitter ext m id type category lat lon rMin rMax).emitters
              = qmapSet id em m.emitters ∧
            em.id = id ∧
            (8 ≤ em.freqMin ∧ em.freqMin ≤ 99 / 10) ∧
            (10 ≤ em.freqMax ∧ em.freqMax ≤ 119 / 10) ∧
            em.freqMin ≤ em.freqMax) ∧
      (∀ (lm : Libm) (em : Emitter) (T : Int),
        (emitterTick lm em T).freqMin = em.freqMin ∧
          (emitterTick lm em T).freqMax = em.freqMax) ∧
      (∀ (lm : Libm) (toJson : QJsonObject → Bytes) (m : NetworkedEWAM) (deltaMs : Int)
          (env : TickEnv),
        ∀ p ∈ (updateSimulation lm toJson m deltaMs env).1.emitters,
          ∃ q ∈ m.emitters, p.1 = q.1 ∧ p.2.freqMin = q.2.freqMin ∧
            p.2.freqMax = q.2.freqMax) ∧
      ∀ (cx : Context) (ops : List Op),
        ∀ p ∈ (runOps cx NetworkedEWAM.construct ops).emitters,
          p.2.freqMin ≤ p.2.freqMax := by
  refine ⟨createSimulatedEmitter_band, fun _ _ _ => ⟨rfl, rfl⟩, ?_, ?_⟩
  · intro lm toJson m deltaMs env p hp
    obtain ⟨q, hq, T, hT⟩ := mem_updateEmitters lm toJson m env m.emitters _ _ p hp
    exact ⟨q, hq, by rw [hT], by rw [hT]; rfl, by rw [hT]; rfl⟩
  · intro cx ops
    exact runOps_ordered cx ops NetworkedEWAM.construct
      (fun p hp => absurd hp (List.not_mem_nil p))

/-! ### Protocol codec -/

/-- The entity record, entry by entry in key order. -/
theorem entityJson_eq (e : SimulatedEntity) :
    entityJson e =
      [("altitude", QJsonValue.num e.altitude),
        ("apd", QJsonValue.str e.priority),
        ("category", QJsonValue.int e.category),
        ("ghost", QJsonValue.bool false),
        ("heading", QJsonValue.num e.heading),
        ("id", QJsonValue.str e.id),
        ("jam", QJsonValue.bool e.jam),
        ("lat", QJsonValue.num e.lat),
        ("lon", QJsonValue.num e.lon),
        ("priority", QJsonValue.str e.priority),
        ("speed", QJsonValue.num e.speed),
        ("state", QJsonValue.str "active"),
        ("type", QJsonValue.str e.type)] := by
  simp +decide [entityJson, qmapSet]

/-- C13: the object that `sendEntityUpdate` builds and hands to `sendJson` has exactly the
13 keys id, type, lat, lon, altitude, speed, heading, priority, jam, ghost, category,
state, apd (held in key order); id, type, lat, lon, altitude, speed, heading, priority and
jam carry the entity's fields, ghost is false, state is "active", category is the integer
value of the entity's category and apd is the priority. -/
theorem entity_record_encoding (e : SimulatedEntity) :
    jsonKeys (entityJson e) =
        ["altitude", "apd", "category", "ghost", "heading", "id", "jam", "lat", "lon",
          "priority", "speed", "state", "type"] ∧
      (jsonKeys (entityJson e)).length = 13 ∧
      (jsonKeys (entityJson e)).Nodup ∧
      jsonValue (entityJson e) "id" = some (QJsonValue.str e.id) ∧
      jsonValue (entityJson e) "type" = some (QJsonValue.str e.type) ∧
      jsonValue (entityJson e) "lat" = some (QJsonValue.num e.lat) ∧
      jsonValue (entityJson e) "lon" = some (QJsonValue.num e.lon) ∧
      jsonValue (entityJson e) "altitude" = some (QJsonValue.num e.altitude) ∧
      jsonValue (entityJson e) "speed" = some (QJsonValue.num e.speed) ∧
      jsonValue (entityJson e) "heading" = some (QJsonValue.num e.heading) ∧
      jsonValue (entityJson e) "priority" = some (QJsonValue.str e.priority) ∧
      jsonValue (entityJson e) "jam" = some (QJsonValue.bool e.jam) ∧
      jsonValue (entityJson e) "ghost" = some (QJsonValue.bool false) ∧
      jsonValue (entityJson e) "category" = some (QJsonValue.int e.category) ∧
      jsonValue (entityJson e) "state" = some (QJsonValue.str "active") ∧
      jsonValue (entityJson e) "apd" = some (QJsonValue.str e.priority) ∧
      ∀ (toJson : QJsonObject → Bytes) (m : NetworkedEWAM) (written : Int) (flushed : Bool),
        (sendEntityUpdate toJson m e written flushed).2
          = (sendJson toJson m (entityJson e) written flushed).2.2 := by
  refine ⟨?_, ?_, ?_, ?_, ?_, ?_, ?_, ?_, ?_, ?_, ?_, ?_, ?_, ?_, ?_, ?_,
    fun _ _ _ _ => rfl⟩ <;> rw [entityJson_eq] <;> simp +decide [jsonValue, jsonKeys]

/-! ### Direction of the turn -/

theorem updateAltitude_turnRate (e : SimulatedEntity) (dt : ℚ) :
    (updateAltitude e dt).turnRate = e.turnRate := by
  unfold updateAltitude
  split <;> rfl

theorem updateSpeed_turnRate (e : SimulatedEntity) (dt : ℚ) :
    (updateSpeed e dt).turnRate = e.turnRate := by
  unfold updateSpeed
  split <;> rfl

/-- The turn rate after a tick in which the heading is turned. -/
theorem updateDynamics_turnRate (e : SimulatedEntity) (deltaMs : Int)
    (hgt : |e.heading - e.targetHeading| > 1) :
    (updateDynamics e deltaMs).turnRate = 3 * turnDirection e.heading e.targetHeading := by
  simp only [updateDynamics, updateSpeed_turnRate, updateAltitude_turnRate]
  unfold updateHeading
  rw [if_pos hgt]

/-- For headings of `[0, 360)` the normalised difference lies in `[-180, 180]`, is -180
only for a target exactly half a turn below the heading, and its size is the angular
distance. -/
theorem headingDiff_range (h t : ℚ) (hh0 : 0 ≤ h) (hh1 : h < 360) (ht0 : 0 ≤ t)
    (ht1 : t < 360) :
    (-180 ≤ headingDiff h t ∧ headingDiff h t ≤ 180) ∧
      (headingDiff h t = -180 ↔ h - t = 180) ∧
      |headingDiff h t| = angularDistance h t := by
  unfold angularDistance
  rcases headingDiff_spec h t with ⟨c, e⟩ | ⟨c, e⟩ | ⟨c1, c2, e⟩
  · rw [e]
    refine ⟨⟨by linarith, by linarith⟩, ⟨fun hx => by linarith, fun hx => by linarith⟩, ?_⟩
    rw [abs_of_neg (by linarith), abs_of_neg (by linarith : h - t < 0), min_eq_right]
    · ring
    · linarith
  · rw [e]
    refine ⟨⟨by linarith, by linarith⟩, ⟨fun hx => by linarith, fun hx => by linarith⟩, ?_⟩
    rw [abs_of_pos (by linarith), abs_of_pos (by linarith : 0 < h - t), min_eq_right]
    · ring
    · linarith
  · rw [e]
    refine ⟨⟨c1, c2⟩, ⟨fun hx => by linarith, fun hx => by linarith⟩, ?_⟩
    have hab : |t - h| = |h - t| := abs_sub_comm t h
    rw [hab, min_eq_left]
    have : |h - t| ≤ 180 := abs_le.mpr ⟨by linarith, by linarith⟩
    linarith

/-- C14 fails for a target exactly half a turn below the heading: with heading 180 and
target heading 0 the normalised difference is -180, outside `(-180, 180]`, and the
heading is turned at -3 deg/s. -/
theorem headingDiff_reaches_minus_180 :
    (0 ≤ (sampleEntity 180 0 30000 30000 400 400).heading ∧
        (sampleEntity 180 0 30000 30000 400 400).heading < 360) ∧
      (0 ≤ (sampleEntity 180 0 30000 30000 400 400).targetHeading ∧
        (sampleEntity 180 0 30000 30000 400 400).targetHeading < 360) ∧
      |(sampleEntity 180 0 30000 30000 400 400).heading -
        (sampleEntity 180 0 30000 30000 400 400).targetHeading| > 1 ∧
      headingDiff (sampleEntity 180 0 30000 30000 400 400).heading
        (sampleEntity 180 0 30000 30000 400 400).targetHeading = -180 ∧
      ¬ (-180 < headingDiff (sampleEntity 180 0 30000 30000 400 400).heading
        (sampleEntity 180 0 30000 30000 400 400).targetHeading) ∧
      (updateDynamics (sampleEntity 180 0 30000 30000 400 400) 1000).turnRate = -3 := by
  have hd : headingDiff (sampleEntity 180 0 30000 30000 400 400).heading
      (sampleEntity 180 0 30000 30000 400 400).targetHeading = -180 := by
    norm_num [sampleEntity, headingDiff]
  have hgt : |(sampleEntity 180 0 30000 30000 400 400).heading -
      (sampleEntity 180 0 30000 30000 400 400).targetHeading| > 1 := by
    norm_num [sampleEntity]
  refine ⟨by norm_num [sampleEntity], by norm_num [sampleEntity], hgt, hd, ?_, ?_⟩
  · rw [hd]
    norm_num
  · rw [updateDynamics_turnRate _ _ hgt]
    unfold turnDirection
    rw [hd]
    norm_num

/-- C14, amended: for heading and target heading in `[0, 360)` with
`|heading - targetHeading| > 1`, the difference that `updateDynamics` computes after
normalisation differs from `targetHeading - heading` by a whole number of turns, lies in
the closed interval `[-180, 180]` (it is -180 exactly when the target is half a turn below
the heading), is not 0 and has the size of the shortest angular distance; the heading is
turned at +3 deg/s when the difference is positive and at -3 deg/s otherwise, then
wrapped. -/
theorem shorter_direction_turn (e : SimulatedEntity) (deltaMs : Int)
    (hh0 : 0 ≤ e.heading) (hh1 : e.heading < 360)
    (ht0 : 0 ≤ e.targetHeading) (ht1 : e.targetHeading < 360)
    (hgt : |e.heading - e.targetHeading| > 1) :
    (∃ k : Int, headingDiff e.heading e.targetHeading
        = e.targetHeading - e.heading + 360 * (k : ℚ)) ∧
      (-180 ≤ headingDiff e.heading e.targetHeading ∧
        headingDiff e.heading e.targetHeading ≤ 180) ∧
      (headingDiff e.heading e.targetHeading = -180 ↔ e.heading - e.targetHeading = 180) ∧
      headingDiff e.heading e.targetHeading ≠ 0 ∧
      |headingDiff e.heading e.targetHeading| = angularDistance e.heading e.targetHeading ∧
      (updateDynamics e deltaMs).turnRate
        = (if headingDiff e.heading e.targetHeading > 0 then 3 else -3) ∧
      (updateDynamics e deltaMs).heading
        = wrapHeading (e.heading + (updateDynamics e deltaMs).turnRate *
            ((deltaMs : ℚ) / 1000)) := by
  obtain ⟨hr, hm, ha⟩ := headingDiff_range e.heading e.targetHeading hh0 hh1 ht0 ht1
  refine ⟨headingDiff_turns _ _, hr, hm, ?_, ha, ?_, ?_⟩
  · intro h0
    rcases headingDiff_spec e.heading e.targetHeading with ⟨c, e1⟩ | ⟨c, e1⟩ | ⟨c1, c2, e1⟩
    · rw [e1] at h0
      linarith
    · rw [e1] at h0
      linarith
    · rw [e1] at h0
      have : e.heading - e.targetHeading = 0 := by linarith
      rw [this] at hgt
      norm_num at hgt
  · rw [updateDynamics_turnRate _ _ hgt]
    unfold turnDirection
    split_ifs <;> norm_num
  · rw [updateDynamics_turnRate _ _ hgt, updateDynamics_heading_eq, if_pos hgt]

theorem shorter_direction_turn_witness :
    (∃ k : Int, headingDiff (sampleEntity 350 20 30000 30000 400 400).heading
        (sampleEntity 350 20 30000 30000 400 400).targetHeading
        = (sampleEntity 350 20 30000 30000 400 400).targetHeading -
          (sampleEntity 350 20 30000 30000 400 400).heading + 360 * (k : ℚ)) ∧
      (-180 ≤ headingDiff (sampleEntity 350 20 30000 30000 400 400).heading
          (sampleEntity 350 20 30000 30000 400 400).targetHeading ∧
        headingDiff (sampleEntity 350 20 30000 30000 400 400).heading
          (sampleEntity 350 20 30000 30000 400 400).targetHeading ≤ 180) ∧
      (headingDiff (sampleEntity 350 20 30000 30000 400 400).heading
          (sampleEntity 350 20 30000 30000 400 400).targetHeading = -180 ↔
        (sampleEntity 350 20 30000 30000 400 400).heading -
          (sampleEntity 350 20 30000 30000 400 400).targetHeading = 180) ∧
      headingDiff (sampleEntity 350 20 30000 30000 400 400).heading
        (sampleEntity 350 20 30000 30000 400 400).targetHeading ≠ 0 ∧
      |headingDiff (sampleEntity 350 20 30000 30000 400 400).heading
          (sampleEntity 350 20 30000 30000 400 400).targetHeading|
        = angularDistance (sampleEntity 350 20 30000 30000 400 400).heading
          (sampleEntity 350 20 30000 30000 400 400).targetHeading ∧
      (updateDynamics (sampleEntity 350 20 30000 30000 400 400) 1000).turnRate
        = (if headingDiff (sampleEntity 350 20 30000 30000 400 400).heading
            (sampleEntity 350 20 30000 30000 400 400).targetHeading > 0 then 3 else -3) ∧
      (updateDynamics (sampleEntity 350 20 30000 30000 400 400) 1000).heading
        = wrapHeading ((sampleEntity 350 20 30000 30000 400 400).heading +
            (updateDynamics (sampleEntity 350 20 30000 30000 400 400) 1000).turnRate *
              (((1000 : Int) : ℚ) / 1000)) :=
  shorter_direction_turn (sampleEntity 350 20 30000 30000 400 400) 1000
    (by norm_num [sampleEntity]) (by norm_num [sampleEntity])
    (by norm_num [sampleEntity]) (by norm_num [sampleEntity])
    (by norm_num [sampleEntity])

/-! ### Emitter drift -/

/-- The emitters after the emitter loop do not depend on the number of the record. -/
theorem updateEmitters_fst (lm : Libm) (toJson : QJsonObject → Bytes) (m : NetworkedEWAM)
    (env : TickEnv) (l : List (String × Emitter)) :
    ∀ (i j j0 : Nat), (updateEmitters lm toJson m env l i j).1
      = (updateEmitters lm toJson m env l i j0).1 := by
  induction l with
  | nil =>
    intro i j j0
    rfl
  | cons head rest ih =>
    intro i j j0
    obtain ⟨key, emitter⟩ := head
    simp only [updateEmitters]
    rw [ih (i + 1) (j + 1) (j0 + 1)]

/-- The emitters after `updateSimulation` do not depend on the tick length. -/
theorem updateSimulation_emitters_tick_free (lm : Libm) (toJson : QJsonObject → Bytes)
    (m : NetworkedEWAM) (d1 d2 : Int) (env : TickEnv) :
    (updateSimulation lm toJson m d1 env).1.emitters
      = (updateSimulation lm toJson m d2 env).1.emitters := by
  simp only [updateSimulation]
  exact updateEmitters_fst lm toJson m env m.emitters 0 _ _

/-- The position after the ticks at `Ts` is the position before plus the sum of the
displacements of the ticks. -/
theorem emitterTicks_position (lm : Libm) (Ts : List Int) :
    ∀ em : Emitter,
      (emitterTicks lm em Ts).lat
          = em.lat + (Ts.map (fun (T0 : Int) => (0.01 : ℚ) * lm.sin ((T0 : ℚ) / 10000))).sum ∧
        (emitterTicks lm em Ts).lon
          = em.lon + (Ts.map (fun (T0 : Int) => (0.01 : ℚ) * lm.cos ((T0 : ℚ) / 10000))).sum := by
  induction Ts with
  | nil =>
    intro em
    simp [emitterTicks]
  | cons T rest ih =>
    intro em
    obtain ⟨h1, h2⟩ := ih (emitterTick lm em T)
    have e1 : emitterTicks lm em (T :: rest) = emitterTicks lm (emitterTick lm em T) rest := rfl
    rw [e1, h1, h2]
    simp only [emitterTick, List.map_cons, List.sum_cons]
    constructor <;> ring

/-- The emitter loop ticks every emitter of the map, in key order, the `i`-th at the
`i`-th reading of the clock. -/
theorem updateEmitters_eq (lm : Libm) (toJson : QJsonObject → Bytes) (m : NetworkedEWAM)
    (env : TickEnv) (l : List (String × Emitter)) :
    ∀ (i j : Nat), (updateEmitters lm toJson m env l i j).1
      = (l.enumFrom i).map (fun p => (p.2.1, emitterTick lm p.2.2 (env.now p.1))) := by
  induction l with
  | nil =>
    intro i j
    rfl
  | cons head rest ih =>
    intro i j
    obtain ⟨key, emitter⟩ := head
    simp only [updateEmitters, List.enumFrom_cons, List.map_cons]
    rw [ih (i + 1) (j + 1)]

/-- The tick of the model is the drift step with the sine and cosine of the library. -/
theorem emitterTick_eq_driftStep (lm : Libm) (em : Emitter) (T : Int) :
    ((emitterTick lm em T).lat, (emitterTick lm em T).lon)
      = driftStep lm.sin lm.cos (em.lat, em.lon) T := by
  simp [emitterTick, driftStep]

/-- The position after several ticks is the position before plus the sum of the
displacements of the ticks, over any field. -/
theorem driftSteps_position {K : Type} [Field K] (sin cos : K → K) (Ts : List Int) :
    ∀ pos : K × K,
      driftSteps sin cos pos Ts
        = (pos.1 + (Ts.map (fun (T0 : Int) => (0.01 : K) * sin ((T0 : K) / 10000))).sum,
          pos.2 + (Ts.map (fun (T0 : Int) => (0.01 : K) * cos ((T0 : K) / 10000))).sum) := by
  induction Ts with
  | nil =>
    intro pos
    simp [driftSteps]
  | cons T rest ih =>
    intro pos
    have e1 : driftSteps sin cos pos (T :: rest)
        = driftSteps sin cos (driftStep sin cos pos T) rest := rfl
    rw [e1, ih]
    simp only [driftStep, List.map_cons, List.sum_cons]
    ext <;> simp only <;> ring

/-- With the real sine and cosine one tick moves a position by exactly 0.01. -/
theorem driftStep_real_displacement (pos : ℝ × ℝ) (T : Int) :
    ((driftStep Real.sin Real.cos pos T).1 - pos.1) ^ 2 +
        ((driftStep Real.sin Real.cos pos T).2 - pos.2) ^ 2 = 0.0001 := by
  have h := Real.sin_sq_add_cos_sq ((T : ℝ) / 10000)
  simp only [driftStep]
  norm_num
  linear_combination (1 / 10000 : ℝ) * h

/-- At clock reading 0 the real sine is 0 and the real cosine is 1: the tick moves the
position by 0.01 in longitude only. -/
theorem driftStep_real_at_zero (pos : ℝ × ℝ) :
    driftStep Real.sin Real.cos pos 0 = (pos.1, pos.2 + 0.01) := by
  simp [driftStep]

/-- With the real sine and cosine two ticks one second apart end more than 0.01 from the
start: the squared distance is `0.0001 * (2 + 2 * cos (1 / 10))`. -/
theorem driftStep_real_two_ticks (pos : ℝ × ℝ) (T : Int) :
    ((driftStep Real.sin Real.cos (driftStep Real.sin Real.cos pos T) (T + 1000)).1
          - pos.1) ^ 2 +
        ((driftStep Real.sin Real.cos (driftStep Real.sin Real.cos pos T) (T + 1000)).2
          - pos.2) ^ 2 = 0.0001 * (2 + 2 * Real.cos (1 / 10)) ∧
      (0.0001 : ℝ) < 0.0001 * (2 + 2 * Real.cos (1 / 10)) := by
  have ha := Real.sin_sq_add_cos_sq ((T : ℝ) / 10000)
  have hb := Real.sin_sq_add_cos_sq (((T : ℝ) + 1000) / 10000)
  have hc : Real.cos (1 / 10)
      = Real.cos (((T : ℝ) + 1000) / 10000) * Real.cos ((T : ℝ) / 10000)
        + Real.sin (((T : ℝ) + 1000) / 10000) * Real.sin ((T : ℝ) / 10000) := by
    rw [← Real.cos_sub]
    congr 1
    ring
  have hpos : 0 < Real.cos (1 / 10) := by
    apply Real.cos_pos_of_mem_Ioo
    constructor <;> linarith [Real.pi_gt_three]
  constructor
  · simp only [driftStep]
    push_cast
    rw [hc]
    norm_num
    linear_combination (1 / 10000 : ℝ) * ha + (1 / 10000 : ℝ) * hb
  · linarith

/-- C15: one tick of the emitter branch at clock reading `T` sets
`lat' = lat + 0.01 * sin (T / 10000)` and `lon' = lon + 0.01 * cos (T / 10000)` and
changes no other field; `updateSimulation` ticks every emitter of the map, the `i`-th at
the `i`-th reading of the clock, whatever the tick length; with the real sine and cosine
the displacement of a tick satisfies `(lat' - lat)² + (lon' - lon)² = 0.0001`; the
position after several ticks is the position before plus the sum of the displacements;
and after two ticks one second apart the squared distance from the start is
`0.0001 * (2 + 2 * cos (1 / 10))`, more than 0.0001, so the position is off the circle of
radius 0.01 around the start. -/
theorem emitter_drift_additive :
    (∀ (lm : Libm) (em : Emitter) (T : Int),
        emitterTick lm em T =
          { em with
            lat := em.lat + 0.01 * lm.sin ((T : ℚ) / 10000)
            lon := em.lon + 0.01 * lm.cos ((T : ℚ) / 10000) }) ∧
      (∀ (lm : Libm) (toJson : QJsonObject → Bytes) (m : NetworkedEWAM) (deltaMs : Int)
          (env : TickEnv),
        (updateSimulation lm toJson m deltaMs env).1.emitters
          = m.emitters.enum.map
              (fun p => (p.2.1, emitterTick lm p.2.2 (env.now p.1)))) ∧
      (∀ (lm : Libm) (em : Emitter) (T : Int),
        ((emitterTick lm em T).lat, (emitterTick lm em T).lon)
          = driftStep lm.sin lm.cos (em.lat, em.lon) T) ∧
      (∀ (pos : ℝ × ℝ) (T : Int),
        ((driftStep Real.sin Real.cos pos T).1 - pos.1) ^ 2 +
          ((driftStep Real.sin Real.cos pos T).2 - pos.2) ^ 2 = 0.0001) ∧
      (∀ (lm : Libm) (em : Emitter) (Ts : List Int),
        (emitterTicks lm em Ts).lat
            = em.lat + (Ts.map (fun (T0 : Int) => (0.01 : ℚ) * lm.sin ((T0 : ℚ) / 10000))).sum ∧
          (emitterTicks lm em Ts).lon
            = em.lon +
              (Ts.map (fun (T0 : Int) => (0.01 : ℚ) * lm.cos ((T0 : ℚ) / 10000))).sum) ∧
      (∀ (pos : ℝ × ℝ) (Ts : List Int),
        driftSteps Real.sin Real.cos pos Ts
          = (pos.1 +
              (Ts.map (fun (T0 : Int) => (0.01 : ℝ) * Real.sin ((T0 : ℝ) / 10000))).sum,
            pos.2 +
              (Ts.map (fun (T0 : Int) => (0.01 : ℝ) * Real.cos ((T0 : ℝ) / 10000))).sum)) ∧
      (∀ (pos : ℝ × ℝ) (T : Int),
        ((driftSteps Real.sin Real.cos pos [T, T + 1000]).1 - pos.1) ^ 2 +
            ((driftSteps Real.sin Real.cos pos [T, T + 1000]).2 - pos.2) ^ 2
          = 0.0001 * (2 + 2 * Real.cos (1 / 10)) ∧
          (0.0001 : ℝ) < 0.0001 * (2 + 2 * Real.cos (1 / 10))) := by
  refine ⟨fun _ _ _ => rfl, ?_, emitterTick_eq_driftStep, driftStep_real_displacement,
    fun lm em Ts => emitterTicks_position lm Ts em,
    fun pos Ts => driftSteps_position Real.sin Real.cos Ts pos,
    fun pos T => driftStep_real_two_ticks pos T⟩
  intro lm toJson m deltaMs env
  simp only [updateSimulation, List.enum]
  exact updateEmitters_eq lm toJson m env m.emitters 0 _

/-! ### Auto-reconnect -/

/-- The manager that `main` builds has `autoReconnect` set. -/
theorem mainSetup_autoReconnect (ext : External) (opts : Options) (draw : Nat → Nat)
    (bindOk : Bool) (r : NetworkedEWAM × List SocketCall)
    (h : mainSetup ext opts draw bindOk = some r) : r.1.autoReconnect = true := by
  simp only [mainSetup] at h
  split_ifs at h <;> cases h <;>
    first
      | rfl
      | (rw [startServer_autoReconnect]; rfl)
      | (rw [initializeSimulation_autoReconnect]; rfl)

/-- The manager that `main` builds does not depend on the no-reconnect setting. -/
theorem mainSetup_noReconnect_free (ext : External) (opts : Options) (draw : Nat → Nat)
    (bindOk : Bool) (b : Bool) :
    mainSetup ext { opts with noReconnect := b } draw bindOk
      = mainSetup ext opts draw bindOk := rfl

/-- C16: `autoReconnect` is true in the constructed manager; every operation of the
manager, the private helpers included, leaves it as it is, so it is true after every
sequence of operations; and the manager that `main` builds does not depend on the
no-reconnect setting and has `autoReconnect` true, as the evaluation for both values of
the setting shows. -/
theorem autoReconnect_always_true :
    NetworkedEWAM.construct.autoReconnect = true ∧
      (∀ (cx : Context) (m : NetworkedEWAM) (op : Op),
        (applyOp cx m op).autoReconnect = m.autoReconnect) ∧
      (∀ (ext : External) (m : NetworkedEWAM) (id type : String) (lat lon altitude : ℚ)
          (rSpeed rHeading : Nat),
        (createSimulatedEntity ext m id type lat lon altitude rSpeed rHeading).autoReconnect
          = m.autoReconnect) ∧
      (∀ (ext : External) (m : NetworkedEWAM) (id type category : String) (lat lon : ℚ)
          (rMin rMax : Nat),
        (createSimulatedEmitter ext m id type category lat lon rMin rMax).autoReconnect
          = m.autoReconnect) ∧
      (∀ (toJson : QJsonObject → Bytes) (m : NetworkedEWAM) (e : SimulatedEntity)
          (written : Int) (flushed : Bool),
        (sendEntityUpdate toJson m e written flushed).1.autoReconnect = m.autoReconnect) ∧
      (∀ (toJson : QJsonObject → Bytes) (m : NetworkedEWAM) (em : Emitter)
          (written : Int) (flushed : Bool),
        (sendEmitterUpdate toJson m em written flushed).1.autoReconnect = m.autoReconnect) ∧
      (∀ (cx : Context) (ops : List Op),
        (runOps cx NetworkedEWAM.construct ops).autoReconnect = true) ∧
      (∀ (ext : External) (opts : Options) (draw : Nat → Nat) (bindOk b : Bool),
        mainSetup ext { opts with noReconnect := b } draw bindOk
          = mainSetup ext opts draw bindOk) ∧
      (∀ (ext : External) (opts : Options) (draw : Nat → Nat) (bindOk : Bool),
        (mainSetup ext opts draw bindOk).all (fun r => r.1.autoReconnect) = true) ∧
      (mainSetup sampleExternal { Options.default with noReconnect := true }
          (fun k => k) true).map (fun r => r.1.autoReconnect) = some true ∧
      (mainSetup sampleExternal { Options.default with noReconnect := false }
          (fun k => k) true).map (fun r => r.1.autoReconnect) = some true := by
  refine ⟨rfl, applyOp_autoReconnect, fun _ _ _ _ _ _ _ _ _ => rfl,
    fun _ _ _ _ _ _ _ _ _ => rfl, ?_, ?_, ?_, ?_, ?_, ?_, ?_⟩
  · intro toJson m e written flushed
    rw [sendEntityUpdate_manager]
  · intro toJson m em written flushed
    rw [sendEmitterUpdate_manager]
  · intro cx ops
    exact runOps_autoReconnect cx ops NetworkedEWAM.construct
  · intro ext opts draw bindOk b
    exact mainSetup_noReconnect_free ext opts draw bindOk b
  · intro ext opts draw bindOk
    cases h : mainSetup ext opts draw bindOk with
    | none => rfl
    | some r => simpa [Option.all] using mainSetup_autoReconnect ext opts draw bindOk r h
  · have hv : ∃ r, mainSetup sampleExternal { Options.default with noReconnect := true }
        (fun k => k) true = some r := by
      simp +decide [mainSetup, Options.default]
    obtain ⟨r, hr⟩ := hv
    rw [hr]
    simp [mainSetup_autoReconnect _ _ _ _ r hr]
  · have hv : ∃ r, mainSetup sampleExternal { Options.default with noReconnect := false }
        (fun k => k) true = some r := by
      simp +decide [mainSetup, Options.default]
    obtain ⟨r, hr⟩ := hv
    rw [hr]
    simp [mainSetup_autoReconnect _ _ _ _ r hr]

end NEWAM
